import Mathlib

/-!
Verification of the HTTP/2 server connection engine of this repository
(src/lib/http2/connection.c) against its natural-language specification.

The definitions below are a shallow embedding of the C code.  Functions that
live in src/lib/http2/connection.c are translated directly; code of this
repository that is not under src/ (the http2 headers, stream.c, scheduler.c,
frame.c and the application callbacks) is modelled from the specification and
each such definition carries a doc comment starting with
`Modelled from the spec:` naming what is missing.
-/

/-- Maximum value of a signed 32-bit integer (INT32_MAX). -/
def INT32_MAX : Int := 2147483647

/-- Modelled from the spec: constant H2O_HTTP2_SETTINGS_HOST_CONNECTION_WINDOW_SIZE
from the http2 headers (not under src/); spec section 3 and 4.6 fix the local
connection window target at 16 MiB. -/
def HOST_CONNECTION_WINDOW_SIZE : Nat := 16777216

/-- Modelled from the spec: constant H2O_HTTP2_SETTINGS_HOST_STREAM_INITIAL_WINDOW_SIZE
from the http2 headers (not under src/); spec section 3 and 4.6 fix the default
initial stream window at 65535. -/
def HOST_STREAM_INITIAL_WINDOW_SIZE : Nat := 65535

/-- Modelled from the spec: constant H2O_HTTP2_SETTINGS_HOST_MAX_CONCURRENT_STREAMS
from the http2 headers (not under src/); spec section 3 fixes it at 100. -/
def HOST_MAX_CONCURRENT_STREAMS : Nat := 100

/-- HTTP/2 error code NO_ERROR (spec section 6). -/
def H2_ERROR_NONE : Nat := 0

/-- HTTP/2 error code PROTOCOL_ERROR (spec section 6). -/
def H2_ERROR_PROTOCOL : Nat := 1

/-- HTTP/2 error code FLOW_CONTROL_ERROR (spec section 6). -/
def H2_ERROR_FLOW_CONTROL : Nat := 3

/-- HTTP/2 error code STREAM_CLOSED (spec section 6). -/
def H2_ERROR_STREAM_CLOSED : Nat := 5

/-- HTTP/2 error code FRAME_SIZE_ERROR (spec section 6). -/
def H2_ERROR_FRAME_SIZE : Nat := 6

/-- HTTP/2 error code REFUSED_STREAM (spec section 6). -/
def H2_ERROR_REFUSED_STREAM : Nat := 7

/-- HTTP/2 error code ENHANCE_YOUR_CALM (spec section 6). -/
def H2_ERROR_ENHANCE_YOUR_CALM : Nat := 11

/-- Connection lifecycle state (H2O_HTTP2_CONN_STATE_OPEN, HALF_CLOSED, IS_CLOSING). -/
inductive ConnState where
  | connOpen
  | halfClosed
  | isClosing
deriving DecidableEq

/-- Numeric value of a connection state, mirroring the C enum order so that the
comparisons `conn->state < H2O_HTTP2_CONN_STATE_...` of the source can be embedded. -/
def ConnState.toNat : ConnState → Nat
  | .connOpen => 0
  | .halfClosed => 1
  | .isClosing => 2

/-- Stream lifecycle state (H2O_HTTP2_STREAM_STATE_*). -/
inductive StreamState where
  | idle
  | recvHeaders
  | recvBody
  | reqPending
  | sendHeaders
  | sendBody
  | sendBodyIsFinal
  | endStream
deriving DecidableEq

/-- Numeric value of a stream state, mirroring the C enum order. -/
def StreamState.toNat : StreamState → Nat
  | .idle => 0
  | .recvHeaders => 1
  | .recvBody => 2
  | .reqPending => 3
  | .sendHeaders => 4
  | .sendBody => 5
  | .sendBodyIsFinal => 6
  | .endStream => 7

/-- Request body sub-state (enum en_h2o_req_body_state_t). -/
inductive ReqBodyState where
  | rbNone
  | rbOpenBeforeFirstFrame
  | rbOpen
  | rbCloseQueued
  | rbCloseDelivered
deriving DecidableEq

/-- Numeric value of a request body sub-state, mirroring the C enum order. -/
def ReqBodyState.toNat : ReqBodyState → Nat
  | .rbNone => 0
  | .rbOpenBeforeFirstFrame => 1
  | .rbOpen => 2
  | .rbCloseQueued => 3
  | .rbCloseDelivered => 4

/-- Modelled from the spec: h2o_http2_window_t (http2 headers, not under src/).
Spec section 4.1: a signed credit counter with avail in the signed 32-bit range. -/
structure H2Window where
  avail : Int
deriving DecidableEq

/-- Modelled from the spec: h2o_http2_window_update (http2 headers, not under src/).
Spec section 4.1: update(delta) fails (flow-control error) iff the resulting avail
would exceed 2^31 - 1; a result landing exactly at 2^31 - 1 is permitted.  On
failure the window is left unchanged (the callers that check the result treat a
failure as an error without using the window further). -/
def h2o_http2_window_update (w : H2Window) (delta : Int) : Option H2Window :=
  if w.avail + delta > INT32_MAX then none else some ⟨w.avail + delta⟩

/-- Modelled from the spec: h2o_http2_window_consume_window (http2 headers, not under
src/).  Spec section 4.1: consume(n) subtracts unconditionally (may go negative). -/
def h2o_http2_window_consume_window (w : H2Window) (n : Nat) : H2Window :=
  ⟨w.avail - n⟩

/-- Modelled from the spec: h2o_http2_window_get_avail (http2 headers, not under src/). -/
def h2o_http2_window_get_avail (w : H2Window) : Int :=
  w.avail

/-- Priority record of a stream: dependency, weight and the exclusive flag (spec
section 3). -/
structure PriorityRecord where
  dependency : Nat
  weight : Nat
  exclusive : Bool
deriving DecidableEq

/-- Frames appended to the write buffer of the connection (conn->_write.buf).  The
frame codec that turns them into bytes is external (frame.c); the embedding keeps
the write buffer as a list of decoded frames, except for the verbatim server
preface which is kept as its literal bytes. -/
inductive OutFrame where
  | goawayFrame (lastStreamId : Nat) (errorCode : Nat) (debugData : String)
  | rstStreamFrame (streamId : Nat) (errorCode : Nat)
  | windowUpdateFrame (streamId : Nat) (increment : Int)
  | settingsAckFrame
  | rawBytes (bytes : List Nat)
deriving DecidableEq

/-- Result of a frame handler: 0 (ok) or a negative HTTP/2 error code with a
description, which parse_input turns into a connection error. -/
inductive HRes where
  | ok
  | connError (code : Nat) (desc : String)
deriving DecidableEq

/-- Callback currently installed in conn->_graceful_shutdown_timeout. -/
inductive GracefulCb where
  | resendGoaway
  | closeStraggler
deriving DecidableEq

/-- Value of conn->_read_expect: the function that parses the next chunk of input. -/
inductive ReadExpect where
  | expectPreface
  | expectDefault
  | expectContinuation
deriving DecidableEq

/-- The num_streams counters of the connection (spec section 3). -/
structure NumStreams where
  pullOpen : Nat
  pullHalfClosed : Nat
  pushOpen : Nat
  pushHalfClosed : Nat
  priorityOpen : Nat
  reqStreamingInProgress : Nat
  tunnel : Nat
  blockedByServer : Nat
deriving DecidableEq

/-- The configuration values read by the connection engine (spec section 6). -/
structure H2Config where
  maxConcurrentRequestsPerConnection : Nat
  maxConcurrentStreamingRequestsPerConnection : Nat
  maxStreamsForPriority : Nat
  maxRequestEntitySize : Nat
  activeStreamWindowSize : Nat
  gracefulShutdownTimeout : Nat
deriving DecidableEq

/-- Per-stream state (h2o_http2_stream_t), restricted to the attributes read or
written by the connection engine paths under verification.  Boolean fields stand
for pointer-is-installed tests of the source: hasProceedReq for
req.proceed_req != NULL, hasWriteReqCb for req.write_req.cb != NULL,
hasReqBodyBuf for req_body.buf != NULL.  canStreamRequest records the result of
the external predicate h2o_req_can_stream_request, supplied as an oracle input.
schedulerWeight tracks the weight of the scheduler reference of the stream (the
scheduler tree itself is external, scheduler.c). -/
structure H2Stream where
  streamId : Nat
  state : StreamState
  reqBodyState : ReqBodyState
  hasProceedReq : Bool
  hasWriteReqCb : Bool
  streamed : Bool
  isTunnelReq : Bool
  blockedByServer : Bool
  processCalled : Bool
  canStreamRequest : Bool
  hasReqBodyBuf : Bool
  contentLength : Option Nat
  reqBodyBytesReceived : Nat
  bodyBufLen : Nat
  outputWindow : H2Window
  inputWindowW : H2Window
  bytesUnnotified : Nat
  hasPendingData : Bool
  schedulerActive : Bool
  schedulerWeight : Nat
  receivedPriority : PriorityRecord
deriving DecidableEq

/-- The connection state (h2o_http2_conn_t), restricted to the attributes read or
written by the paths under verification.  The stream map is kept as a list of
stream records with distinct ids; pendingReqs is the FIFO pending-request queue
(conn->_pending_reqs), holding the queued stream records.  processedRequests is
the trace of stream ids handed to the external h2o_process_request.
writeTimerLinked models h2o_timer_is_linked on conn->_write.timeout_entry;
writeBufInFlight models conn->_write.buf_in_flight != NULL; gracefulTimerMs is
the delay of the linked graceful-shutdown timer, if linked; closedNow records
that close_connection_now ran. -/
structure H2Conn where
  state : ConnState
  streams : List H2Stream
  pullMaxOpen : Nat
  pullMaxProcessed : Nat
  pushMaxOpen : Nat
  num : NumStreams
  pendingReqs : List H2Stream
  inputWindowC : H2Window
  peerInitialWindowSize : Nat
  writeBuf : List OutFrame
  writeBufInFlight : Bool
  writeTimerLinked : Bool
  readExpect : ReadExpect
  gracefulCb : Option GracefulCb
  gracefulTimerMs : Option Nat
  processedRequests : List Nat
  receivedAnyRequest : Bool
  closedNow : Bool
deriving DecidableEq

/-- Modelled from the spec: h2o_http2_stream_is_push (http2 headers, not under src/).
Spec glossary: even ids are server-initiated (push) streams. -/
def h2o_http2_stream_is_push (streamId : Nat) : Bool :=
  streamId % 2 == 0

/-- Embedding of h2o_http2_conn_get_stream: lookup in the stream map. -/
def h2o_http2_conn_get_stream (conn : H2Conn) (streamId : Nat) : Option H2Stream :=
  conn.streams.find? (fun s => s.streamId == streamId)

/-- Store an updated stream record back into the stream map (the C code mutates the
stream object in place). -/
def putStream (conn : H2Conn) (s : H2Stream) : H2Conn :=
  { conn with streams := conn.streams.map (fun t => if t.streamId == s.streamId then s else t) }

/-- Embedding of request_gathered_write (lines 445-451): link the zero-delay write
timer unless a socket write is in flight (h2o_socket_is_writing) or the timer is
already linked. -/
def request_gathered_write (conn : H2Conn) : H2Conn :=
  if conn.writeBufInFlight then conn else { conn with writeTimerLinked := true }

/-- Embedding of h2o_http2_conn_request_write (lines 1375-1382).  The read-stop
back-pressure on the soft max output size concerns the external socket and is not
modelled. -/
def h2o_http2_conn_request_write (conn : H2Conn) : H2Conn :=
  if conn.state = .isClosing then conn else request_gathered_write conn

/-- Embedding of stream_send_error (lines 434-443): encode a RST_STREAM frame into
the write buffer and request a write.  The asserts and the error-event counter are
not modelled. -/
def stream_send_error (conn : H2Conn) (streamId : Nat) (errnum : Nat) : H2Conn :=
  h2o_http2_conn_request_write
    { conn with writeBuf := conn.writeBuf ++ [.rstStreamFrame streamId errnum] }

/-- Embedding of send_window_update (lines 738-744): encode a WINDOW_UPDATE frame,
request a write, and apply the delta to the given window; the result of
h2o_http2_window_update is discarded exactly as in the source (on failure the
window is left unchanged).  The assert delta <= INT32_MAX is not modelled. -/
def send_window_update (conn : H2Conn) (streamId : Nat) (w : H2Window) (delta : Nat) :
    H2Conn × H2Window :=
  let conn2 := h2o_http2_conn_request_write
    { conn with writeBuf := conn.writeBuf ++ [.windowUpdateFrame streamId (delta : Int)] }
  (conn2, (h2o_http2_window_update w (delta : Int)).getD w)

/-- Embedding of enqueue_goaway (lines 71-79): when the connection is not yet
closing, encode a GOAWAY frame carrying pull_stream_ids.max_open and move to
HALF_CLOSED. -/
def enqueue_goaway (conn : H2Conn) (errnum : Nat) (debugData : String) : H2Conn :=
  if conn.state.toNat < ConnState.isClosing.toNat then
    let conn2 := h2o_http2_conn_request_write
      { conn with writeBuf := conn.writeBuf ++ [.goawayFrame conn.pullMaxOpen errnum debugData] }
    { conn2 with state := .halfClosed }
  else conn

/-- Embedding of close_connection_now (lines 361-419): the disposal of streams,
tables, buffers and timers concerns external resources; the embedding records that
the connection reached IS_CLOSING and was torn down. -/
def close_connection_now (conn : H2Conn) : H2Conn :=
  { conn with state := .isClosing, closedNow := true }

/-- Embedding of close_connection (lines 421-432): mark IS_CLOSING; when a write is
in flight or scheduled the actual teardown is deferred to write completion,
otherwise the connection is torn down immediately. -/
def close_connection (conn : H2Conn) : H2Conn :=
  let conn2 : H2Conn := { conn with state := .isClosing }
  if conn2.writeBufInFlight ∨ conn2.writeTimerLinked then conn2 else close_connection_now conn2

/-- Embedding of update_stream_output_window (lines 453-464): returns the updated
stream and whether the update succeeded (the C function returns 0 on success and
-1 on overflow, leaving the window unchanged).  Activation of the scheduler
reference is recorded in the schedulerActive field (the scheduler is external). -/
def update_stream_output_window (s : H2Stream) (delta : Int) : H2Stream × Bool :=
  let cur := h2o_http2_window_get_avail s.outputWindow
  match h2o_http2_window_update s.outputWindow delta with
  | none => (s, false)
  | some w2 =>
    let s2 : H2Stream := { s with outputWindow := w2 }
    if cur ≤ 0 ∧ h2o_http2_window_get_avail w2 > 0 ∧
        (s.hasPendingData ∨ s.state = .sendBodyIsFinal) then
      ({ s2 with schedulerActive := true }, true)
    else (s2, true)

/-- Embedding of update_stream_input_window (lines 746-753).  The C comparison
bytes_unnotified >= h2o_http2_window_get_avail(...) compares a size_t with a
ssize_t, so a negative avail is converted to the unsigned 64-bit type; the
conversion is made explicit here. -/
def update_stream_input_window (conn : H2Conn) (s : H2Stream) (delta : Nat) :
    H2Conn × H2Stream :=
  let bu := s.bytesUnnotified + delta
  let availU : Int :=
    if h2o_http2_window_get_avail s.inputWindowW < 0 then
      h2o_http2_window_get_avail s.inputWindowW + 18446744073709551616
    else h2o_http2_window_get_avail s.inputWindowW
  if (bu : Int) ≥ availU then
    let r := send_window_update conn s.streamId s.inputWindowW bu
    (r.1, { s with inputWindowW := r.2, bytesUnnotified := 0 })
  else (conn, { s with bytesUnnotified := bu })

/-- Connection-level input window bookkeeping of handle_data_frame (lines 912-916):
consume the connection input window by the full frame length, then, if at most
half the target remains, emit a connection-level WINDOW_UPDATE restoring the
window to the target. -/
def conn_update_input_window (conn : H2Conn) (frameLength : Nat) : H2Conn :=
  let conn1 : H2Conn :=
    { conn with inputWindowC := h2o_http2_window_consume_window conn.inputWindowC frameLength }
  if h2o_http2_window_get_avail conn1.inputWindowC ≤ (HOST_CONNECTION_WINDOW_SIZE : Int) / 2 then
    let r := send_window_update conn1 0 conn1.inputWindowC
      ((HOST_CONNECTION_WINDOW_SIZE : Int) - h2o_http2_window_get_avail conn1.inputWindowC).toNat
    { r.1 with inputWindowC := r.2 }
  else conn1

/-- Embedding of set_req_body_state (lines 293-313): the strict-advance assert is
not modelled; entering CLOSE_DELIVERED for a streamed request decrements the
streaming counters (and the tunnel counter for CONNECT). -/
def set_req_body_state (conn : H2Conn) (s : H2Stream) (ns : ReqBodyState) :
    H2Conn × H2Stream :=
  let conn2 : H2Conn :=
    match ns with
    | .rbCloseDelivered =>
      if s.streamed then
        { conn with num :=
          { conn.num with
            reqStreamingInProgress := conn.num.reqStreamingInProgress - 1,
            tunnel := conn.num.tunnel - (if s.isTunnelReq then 1 else 0) } }
      else conn
    | _ => conn
  (conn2, { s with reqBodyState := ns })

/-- Modelled from the spec: h2o_http2_stream_set_blocked_by_server (stream
headers, not under src/): sets the per-stream flag and maintains the
num_streams.blocked_by_server counter (spec section 3). -/
def h2o_http2_stream_set_blocked_by_server (conn : H2Conn) (s : H2Stream) (v : Bool) :
    H2Conn × H2Stream :=
  let conn2 : H2Conn :=
    if v then
      { conn with num := { conn.num with blockedByServer := conn.num.blockedByServer + 1 } }
    else
      { conn with num := { conn.num with blockedByServer := conn.num.blockedByServer - 1 } }
  (conn2, { s with blockedByServer := v })

/-- Modelled from the spec: h2o_http2_stream_set_state (stream.c, not under src/).
The lifecycle field is updated; per spec section 3 and 4.5 a stream that enters
SEND_HEADERS has fully received its request and counts toward the half-closed
counter of its class, which is what the admission gate of section 4.5 reads. -/
def h2o_http2_stream_set_state (conn : H2Conn) (s : H2Stream) (ns : StreamState) :
    H2Conn × H2Stream :=
  let conn2 : H2Conn :=
    if ns = .sendHeaders ∧ s.state.toNat < StreamState.sendHeaders.toNat then
      if h2o_http2_stream_is_push s.streamId then
        { conn with num := { conn.num with pushHalfClosed := conn.num.pushHalfClosed + 1 } }
      else
        { conn with num := { conn.num with pullHalfClosed := conn.num.pullHalfClosed + 1 } }
    else conn
  (conn2, { s with state := ns })

/-- Modelled from the spec: h2o_http2_stream_reset (stream.c, not under src/).
Spec section 4.4 (any state, RST_STREAM in or out, goes to END_STREAM) and
section 7 (the stream is reset locally and destroyed while the connection
continues): the stream record is removed from the stream map and from the
pending-request queue.  Frame emission is performed by the callers
(stream_send_error). -/
def h2o_http2_stream_reset (conn : H2Conn) (s : H2Stream) : H2Conn :=
  { conn with
    streams := conn.streams.filter (fun t => t.streamId != s.streamId),
    pendingReqs := conn.pendingReqs.filter (fun t => t.streamId != s.streamId) }

/-- Embedding of reset_stream_if_disregarded (lines 231-239): a pull stream whose
id exceeds pull_stream_ids.max_open was opened after GOAWAY was sent and is
ignored.  The reset itself is h2o_http2_stream_reset (stream.c, not under src/);
Modelled from the spec: section 4.5 (such a request is answered with RST_STREAM
and dropped) and section 8 scenario 4 (the RST_STREAM carries REFUSED_STREAM),
so the disregarded stream is answered with RST_STREAM(REFUSED_STREAM) before the
local reset. -/
def reset_stream_if_disregarded (conn : H2Conn) (s : H2Stream) : H2Conn × Bool :=
  if ¬ h2o_http2_stream_is_push s.streamId ∧ s.streamId > conn.pullMaxOpen then
    let conn2 : H2Conn :=
      { conn with writeBuf := conn.writeBuf ++ [.rstStreamFrame s.streamId H2_ERROR_REFUSED_STREAM] }
    (h2o_http2_stream_reset conn2 s, true)
  else (conn, false)

/-- Embedding of can_run_requests (lines 170-174): the admission gate counts
half-closed pull and push streams against max_concurrent_requests_per_connection. -/
def can_run_requests (cfg : H2Config) (n : NumStreams) : Bool :=
  n.pullHalfClosed + n.pushHalfClosed < cfg.maxConcurrentRequestsPerConnection

/-- Streaming-limit test of run_pending_requests (lines 217-220): the number of
in-progress streaming request bodies minus the tunnels has reached
max_concurrent_streaming_requests_per_connection.  The subtraction is the C
unsigned subtraction; per the invariant of spec section 3 the streaming counter
is at least the tunnel counter, where it coincides with Nat subtraction. -/
def streaming_limit_reached (cfg : H2Config) (n : NumStreams) : Bool :=
  n.reqStreamingInProgress - n.tunnel ≥ cfg.maxConcurrentStreamingRequestsPerConnection

/-- Counter effects of process_request (lines 176-200) on num_streams: a stream
with proceed_req installed enters streaming mode (streaming counter, and tunnel
counter for CONNECT); otherwise the stream advances REQ_PENDING then SEND_HEADERS
through h2o_http2_stream_set_state, whose half-closed counting is modelled from
the spec (see h2o_http2_stream_set_state).  The window expansion performed for
streaming requests and the external h2o_process_request call act on other parts
of the connection and are recorded by the callers. -/
def process_request_num (s : H2Stream) (n : NumStreams) : NumStreams :=
  if s.hasProceedReq then
    { n with
      reqStreamingInProgress := n.reqStreamingInProgress + 1,
      tunnel := n.tunnel + (if s.isTunnelReq then 1 else 0) }
  else if s.state.toNat < StreamState.sendHeaders.toNat then
    if h2o_http2_stream_is_push s.streamId then
      { n with pushHalfClosed := n.pushHalfClosed + 1 }
    else
      { n with pullHalfClosed := n.pullHalfClosed + 1 }
  else n

/-- One examined queue entry during a scan of the pending-request queue: the
stream, the counters at the moment the loop body examined it, and whether it was
admitted (dispatched) or skipped by the streaming limit. -/
structure ScanEntry where
  stream : H2Stream
  numAt : NumStreams
  admitted : Bool
deriving DecidableEq

/-- Result of one scan (the inner for loop of run_pending_requests): the final
counters, the log of examined entries in order, the dispatched streams in order,
and the streams remaining in the queue in order. -/
structure ScanResult where
  num : NumStreams
  log : List ScanEntry
  dispatched : List H2Stream
  remaining : List H2Stream
deriving DecidableEq

/-- Embedding of the inner for loop of run_pending_requests (lines 210-226): walk
the FIFO queue from the head while can_run_requests holds; a stream with
proceed_req installed is skipped (continue) while the streaming limit is reached;
otherwise the stream is unlinked and dispatched through process_request.  The log
records each examined stream together with the counters at examination. -/
def run_pending_scan (cfg : H2Config) : NumStreams → List H2Stream → ScanResult
  | n, [] => ⟨n, [], [], []⟩
  | n, s :: rest =>
    if can_run_requests cfg n then
      if s.hasProceedReq ∧ streaming_limit_reached cfg n then
        let r := run_pending_scan cfg n rest
        ⟨r.num, ⟨s, n, false⟩ :: r.log, r.dispatched, s :: r.remaining⟩
      else
        let r := run_pending_scan cfg (process_request_num s n) rest
        ⟨r.num, ⟨s, n, true⟩ :: r.log, s :: r.dispatched, r.remaining⟩
    else ⟨n, [], [], s :: rest⟩

/-- Embedding of the outer do-while loop of run_pending_requests (lines 207-228):
rescan while the previous scan dispatched at least one stream and the queue is
not empty.  The fuel is an upper bound on the number of scans; callers pass the
queue length plus one, which suffices because every repeated scan follows a scan
that removed at least one stream from the queue. -/
def run_pending_loop (cfg : H2Config) : Nat → NumStreams → List H2Stream →
    NumStreams × List H2Stream × List H2Stream
  | 0, n, q => (n, [], q)
  | fuel + 1, n, q =>
    let r := run_pending_scan cfg n q
    if r.dispatched ≠ [] ∧ r.remaining ≠ [] then
      let r2 := run_pending_loop cfg fuel r.num r.remaining
      (r2.1, r.dispatched ++ r2.2.1, r2.2.2)
    else (r.num, r.dispatched, r.remaining)

/-- Embedding of run_pending_requests (lines 202-229) at the connection level:
the dispatched streams are appended to the trace of h2o_process_request calls. -/
def run_pending_requests (cfg : H2Config) (conn : H2Conn) : H2Conn :=
  let r := run_pending_loop cfg (conn.pendingReqs.length + 1) conn.num conn.pendingReqs
  { conn with
    num := r.1,
    pendingReqs := r.2.2,
    processedRequests := conn.processedRequests ++ r.2.1.map (fun s => s.streamId) }

/-- Embedding of execute_or_enqueue_request_core (lines 241-248): insert the
stream at the tail of the pending-request queue and run the pending requests.
update_idle_timeout concerns the external timer wheel and is not modelled. -/
def execute_or_enqueue_request_core (cfg : H2Config) (conn : H2Conn) (s : H2Stream) : H2Conn :=
  run_pending_requests cfg { conn with pendingReqs := conn.pendingReqs ++ [s] }

/-- Embedding of execute_or_enqueue_request (lines 250-261): drop the stream when
it is disregarded (opened after GOAWAY); otherwise advance it to REQ_PENDING,
mark it blocked by the server, and enqueue it. -/
def execute_or_enqueue_request (cfg : H2Config) (conn : H2Conn) (s : H2Stream) : H2Conn :=
  let r := reset_stream_if_disregarded conn s
  if r.2 then r.1
  else
    let r1 := h2o_http2_stream_set_state conn s .reqPending
    let r2 :=
      if ¬ r1.2.blockedByServer then h2o_http2_stream_set_blocked_by_server r1.1 r1.2 true
      else r1
    execute_or_enqueue_request_core cfg (putStream r2.1 r2.2) r2.2

/-- Outcome of handle_request_body_chunk, distinguishing its exit paths.
streamedDelivered covers lines 559-568, where the chunk is handed to the
application through the external write_req callback or the entity view;
buffered covers the non-streaming tail of the function. -/
inductive ChunkResult where
  | fatalState
  | entityTooLarge
  | contentLengthMismatch
  | disregarded
  | streamedDelivered
  | buffered
deriving DecidableEq

/-- Content-length guard of handle_request_body_chunk (lines 525-532): a declared
content-length is violated when the received byte count exceeds it, or differs
from it when END_STREAM arrives. -/
def content_length_violated (contentLength : Option Nat) (received : Nat)
    (isEndStream : Bool) : Bool :=
  match contentLength with
  | some cl => if isEndStream then received != cl else decide (cl < received)
  | none => false

/-- Tail of handle_request_body_chunk (lines 534-589), after the two size guards:
mark the stream blocked by the server, drop it when disregarded, apply the
END_STREAM state advances, buffer the chunk, and either hand it to the streaming
machinery, elect request streaming on a first frame, or run or queue the
completed request.  The final hand-off of a streamed chunk to the application
(write_streaming_body and the entity view, lines 559-568) invokes the external
write_req callback and is cut off at the streamedDelivered outcome. -/
def chunk_end_stream_updates (conn : H2Conn) (s : H2Stream) (isEndStream : Bool) :
    H2Conn × H2Stream :=
  if isEndStream then
    let r4 :=
      if s.state.toNat < StreamState.reqPending.toNat then
        let r5 := h2o_http2_stream_set_state conn s .reqPending
        if r5.2.processCalled then h2o_http2_stream_set_state r5.1 r5.2 .sendHeaders
        else r5
      else (conn, s)
    if r4.2.hasWriteReqCb then set_req_body_state r4.1 r4.2 .rbCloseQueued
    else set_req_body_state r4.1 { r4.2 with hasProceedReq := false } .rbCloseDelivered
  else (conn, s)

/-- Delivery tail of handle_request_body_chunk (lines 559-589): the buffered chunk
is handed to the streaming machinery, or request streaming is elected on a first
frame, or the completed request is run or queued. -/
def chunk_deliver (cfg : H2Config) (conn : H2Conn) (s : H2Stream) (reqQueued : Bool)
    (isFirst : Bool) (isEndStream : Bool) : H2Conn × ChunkResult :=
  if s.streamed then
    (putStream conn s, .streamedDelivered)
  else if isFirst ∧ ¬ isEndStream then
    if s.canStreamRequest then
      let s2 : H2Stream := { s with hasProceedReq := true }
      (execute_or_enqueue_request_core cfg (putStream conn s2) s2, .buffered)
    else
      let r6 := update_stream_input_window (putStream conn s) s
        (cfg.activeStreamWindowSize - HOST_STREAM_INITIAL_WINDOW_SIZE)
      (putStream r6.1 r6.2, .buffered)
  else if isEndStream ∧ ¬ reqQueued then
    (execute_or_enqueue_request cfg (putStream conn s) s, .buffered)
  else (putStream conn s, .buffered)

def handle_request_body_chunk_rest (cfg : H2Config) (conn0 : H2Conn) (s0 : H2Stream)
    (isFirst : Bool) (payloadLen : Nat) (isEndStream : Bool) : H2Conn × ChunkResult :=
  let r1 :=
    if ¬ s0.blockedByServer then h2o_http2_stream_set_blocked_by_server conn0 s0 true
    else (conn0, s0)
  let r2 := reset_stream_if_disregarded (putStream r1.1 r1.2) r1.2
  if r2.2 then (r2.1, .disregarded)
  else
    let r3 := chunk_end_stream_updates r2.1 r1.2 isEndStream
    chunk_deliver cfg r3.1 { r3.2 with bodyBufLen := r3.2.bodyBufLen + payloadLen }
      r1.2.hasProceedReq isFirst isEndStream

/-- Embedding of handle_request_body_chunk (lines 501-590).  The h2o_fatal on an
unexpected request-body state is the fatalState outcome; the byte counting and
the two size guards are followed by handle_request_body_chunk_rest. -/
def handle_request_body_chunk (cfg : H2Config) (conn0 : H2Conn) (s0 : H2Stream)
    (payloadLen : Nat) (isEndStream : Bool) : H2Conn × ChunkResult :=
  if s0.reqBodyState = .rbOpenBeforeFirstFrame ∨ s0.reqBodyState = .rbOpen then
    let isFirst := s0.reqBodyState == .rbOpenBeforeFirstFrame
    let r0 :=
      if s0.reqBodyState = .rbOpenBeforeFirstFrame then set_req_body_state conn0 s0 .rbOpen
      else (conn0, s0)
    let conn := r0.1
    let s : H2Stream :=
      { r0.2 with reqBodyBytesReceived := r0.2.reqBodyBytesReceived + payloadLen }
    if s.reqBodyBytesReceived > cfg.maxRequestEntitySize then
      (h2o_http2_stream_reset
        (stream_send_error (putStream conn s) s.streamId H2_ERROR_REFUSED_STREAM) s,
       .entityTooLarge)
    else if content_length_violated s.contentLength s.reqBodyBytesReceived isEndStream then
      (h2o_http2_stream_reset
        (stream_send_error (putStream conn s) s.streamId H2_ERROR_PROTOCOL) s,
       .contentLengthMismatch)
    else handle_request_body_chunk_rest cfg conn s isFirst payloadLen isEndStream
  else (conn0, .fatalState)

/-- Decoded DATA frame as handed to handle_data_frame: length is the full frame
length including padding, payloadLen the payload net of padding.  The decoding
itself (h2o_http2_decode_data_payload, frame.c) is external; it rejects DATA on
stream 0 and invalid padding, so handlers see payloadLen at most length and a
nonzero stream id. -/
structure DataFrame where
  streamId : Nat
  length : Nat
  payloadLen : Nat
  endStream : Bool
deriving DecidableEq

/-- Embedding of handle_data_frame (lines 903-947), after the external payload
decoding. -/
def handle_data_frame (cfg : H2Config) (conn0 : H2Conn) (f : DataFrame) : H2Conn × HRes :=
  let conn := conn_update_input_window conn0 f.length
  match h2o_http2_conn_get_stream conn f.streamId with
  | none =>
    if f.streamId ≤ conn.pullMaxOpen then
      (stream_send_error conn f.streamId H2_ERROR_STREAM_CLOSED, .ok)
    else (conn, .connError H2_ERROR_PROTOCOL "invalid DATA frame")
  | some s =>
    if ¬ (s.reqBodyState = .rbOpenBeforeFirstFrame ∨ s.reqBodyState = .rbOpen) then
      (h2o_http2_stream_reset (stream_send_error conn f.streamId H2_ERROR_STREAM_CLOSED) s, .ok)
    else
      let s1 : H2Stream :=
        { s with inputWindowW := h2o_http2_window_consume_window s.inputWindowW f.length }
      let r :=
        if f.length ≠ f.payloadLen then
          update_stream_input_window (putStream conn s1) s1 (f.length - f.payloadLen)
        else (putStream conn s1, s1)
      if f.payloadLen ≠ 0 ∨ f.endStream then
        ((handle_request_body_chunk cfg (putStream r.1 r.2) r.2 f.payloadLen f.endStream).1, .ok)
      else (putStream r.1 r.2, .ok)

/-- Embedding of the error handling of parse_input (lines 1288-1293) for a frame
handler returning a connection error other than PROTOCOL_CLOSE_IMMEDIATELY:
enqueue a GOAWAY carrying the error and close the connection. -/
def parse_error_close (conn : H2Conn) (code : Nat) (desc : String) : H2Conn :=
  close_connection (enqueue_goaway conn code desc)

/-- Decoded SETTINGS frame as handed to handle_settings_frame.  The parameter
application (h2o_http2_update_peer_settings, frame.c) is external and validates
the values (an INITIAL_WINDOW_SIZE above 2^31 - 1 is rejected there), so
newInitialWindowSize is the validated initial window size of the peer after the
frame is applied. -/
structure SettingsFrame where
  streamId : Nat
  isAck : Bool
  length : Nat
  newInitialWindowSize : Nat
deriving DecidableEq

/-- Embedding of resume_send (lines 1066-1075): nudges the writer.  The
buffer-window guard reads the external socket buffers; the embedding records the
write request. -/
def resume_send (conn : H2Conn) : H2Conn :=
  h2o_http2_conn_request_write conn

/-- Embedding of handle_settings_frame (lines 1077-1113).  The RTT timestamps are
not modelled.  When the initial window size of the peer changes, every stream in
the stream map has its output window adjusted by the delta through
update_stream_output_window, whose result is discarded exactly as in the
source. -/
def handle_settings_frame (conn : H2Conn) (f : SettingsFrame) : H2Conn × HRes :=
  if f.streamId ≠ 0 then (conn, .connError H2_ERROR_PROTOCOL "invalid stream id in SETTINGS frame")
  else if f.isAck then
    if f.length ≠ 0 then (conn, .connError H2_ERROR_FRAME_SIZE "invalid SETTINGS frame (+ACK)")
    else (conn, .ok)
  else
    let prev := conn.peerInitialWindowSize
    let conn1 : H2Conn := { conn with peerInitialWindowSize := f.newInitialWindowSize }
    let conn2 := h2o_http2_conn_request_write
      { conn1 with writeBuf := conn1.writeBuf ++ [.settingsAckFrame] }
    if prev ≠ f.newInitialWindowSize then
      let delta : Int := (f.newInitialWindowSize : Int) - (prev : Int)
      let conn3 : H2Conn :=
        { conn2 with streams := conn2.streams.map (fun s => (update_stream_output_window s delta).1) }
      (resume_send conn3, .ok)
    else (conn2, .ok)

/-- Embedding of initiate_graceful_shutdown (lines 110-132).  The assert that no
graceful-shutdown callback is installed is a precondition of the callers and is
stated as a hypothesis of the theorems.  h2o_conn_set_state acts on the generic
connection object and is not modelled. -/
def initiate_graceful_shutdown (conn : H2Conn) : H2Conn :=
  let conn1 : H2Conn := { conn with gracefulCb := some .resendGoaway }
  let conn2 : H2Conn :=
    if conn1.state.toNat < ConnState.halfClosed.toNat then
      h2o_http2_conn_request_write
        { conn1 with writeBuf :=
            conn1.writeBuf ++ [.goawayFrame 2147483647 H2_ERROR_NONE "graceful shutdown"] }
    else conn1
  { conn2 with gracefulTimerMs := some 1000 }

/-- Embedding of graceful_shutdown_resend_goaway (lines 88-103), run when the
one-second timer fires (so the timer is no longer linked on entry). -/
def graceful_shutdown_resend_goaway (cfg : H2Config) (conn : H2Conn) : H2Conn :=
  let conn1 : H2Conn := { conn with gracefulTimerMs := none }
  if conn1.state.toNat < ConnState.halfClosed.toNat then
    let conn2 := enqueue_goaway conn1 H2_ERROR_NONE ""
    if cfg.gracefulShutdownTimeout > 0 then
      { conn2 with gracefulCb := some .closeStraggler,
                   gracefulTimerMs := some cfg.gracefulShutdownTimeout }
    else conn2
  else conn1

/-- Embedding of graceful_shutdown_close_straggler (lines 81-86), run when the
final graceful-shutdown timer fires. -/
def graceful_shutdown_close_straggler (conn : H2Conn) : H2Conn :=
  close_connection { conn with gracefulTimerMs := none }

/-- The 24-byte client connection preface (CONNECTION_PREFACE, line 33), as bytes. -/
def CONNECTION_PREFACE : List Nat :=
  (String.toList "PRI * HTTP/2.0\r\n\r\nSM\r\n\r\n").map Char.toNat

/-- Frame type number of SETTINGS (spec section 6 wire table). -/
def FRAME_TYPE_SETTINGS : Nat := 4

/-- Frame type number of WINDOW_UPDATE (spec section 6 wire table). -/
def FRAME_TYPE_WINDOW_UPDATE : Nat := 8

/-- Modelled from the spec: identifier of the MAX_CONCURRENT_STREAMS settings
parameter (RFC 7540 section 6.5.2, value 3); the http2 headers defining
H2O_HTTP2_SETTINGS_MAX_CONCURRENT_STREAMS are not under src/. -/
def SETTINGS_MAX_CONCURRENT_STREAMS_ID : Nat := 3

/-- Embedding of the LIT16 macro (line 35): big-endian 16-bit value as two bytes. -/
def lit16 (x : Nat) : List Nat :=
  [(x >>> 8) % 256, x % 256]

/-- Embedding of the LIT24 macro (line 36). -/
def lit24 (x : Nat) : List Nat :=
  lit16 (x >>> 8) ++ [x % 256]

/-- Embedding of the LIT32 macro (line 37). -/
def lit32 (x : Nat) : List Nat :=
  lit24 (x >>> 8) ++ [x % 256]

/-- Embedding of the LIT_FRAME_HEADER macro (line 38): 24-bit length, type byte,
flags byte, 32-bit stream id. -/
def litFrameHeader (size ty flags streamId : Nat) : List Nat :=
  lit24 size ++ [ty, flags] ++ lit32 streamId

/-- Embedding of SERVER_PREFACE_BIN (lines 39-44): a SETTINGS frame advertising
MAX_CONCURRENT_STREAMS = 100 followed by a connection-level WINDOW_UPDATE whose
increment raises the connection window from the default initial window to the
connection window target. -/
def SERVER_PREFACE_BIN : List Nat :=
  litFrameHeader 6 FRAME_TYPE_SETTINGS 0 0 ++
    lit16 SETTINGS_MAX_CONCURRENT_STREAMS_ID ++ lit32 HOST_MAX_CONCURRENT_STREAMS ++
  litFrameHeader 4 FRAME_TYPE_WINDOW_UPDATE 0 0 ++
    lit32 (HOST_CONNECTION_WINDOW_SIZE - HOST_STREAM_INITIAL_WINDOW_SIZE)

/-- Result of one step of the read loop (the return value of a _read_expect
function): incomplete input, close without GOAWAY
(H2O_HTTP2_ERROR_PROTOCOL_CLOSE_IMMEDIATELY), a connection error, or the number
of consumed bytes. -/
inductive ParseStep where
  | incomplete
  | closeImmediately
  | frameError (code : Nat) (desc : String)
  | consumed (n : Nat)
deriving DecidableEq

/-- Embedding of expect_preface (lines 1252-1277).  The optional ORIGIN frame and
the settings_sent_at timestamp are not modelled (no origin frame configured). -/
def expect_preface (conn : H2Conn) (src : List Nat) : H2Conn × ParseStep :=
  if src.length < CONNECTION_PREFACE.length then (conn, .incomplete)
  else if src.take CONNECTION_PREFACE.length ≠ CONNECTION_PREFACE then
    (conn, .closeImmediately)
  else
    let conn1 : H2Conn := { conn with writeBuf := conn.writeBuf ++ [.rawBytes SERVER_PREFACE_BIN] }
    let conn2 := h2o_http2_conn_request_write conn1
    ({ conn2 with readExpect := .expectDefault }, .consumed CONNECTION_PREFACE.length)

/-- Embedding of one iteration of the parse_input loop (lines 1279-1299), for the
preface phase.  Once _read_expect is expect_default, frame dispatch goes through
the external frame decoder and is outside this step function. -/
def parse_input_step (conn : H2Conn) (input : List Nat) : H2Conn × List Nat :=
  if conn.state.toNat < ConnState.isClosing.toNat ∧ input ≠ [] then
    match conn.readExpect with
    | .expectPreface =>
      match expect_preface conn input with
      | (c2, .incomplete) => (c2, input)
      | (c2, .closeImmediately) => (close_connection c2, input)
      | (c2, .frameError code desc) => (parse_error_close c2 code desc, input)
      | (c2, .consumed n) => (c2, input.drop n)
    | _ => (conn, input)
  else (conn, input)

/-- The connection as initialized by create_conn (lines 1684-1756), restricted to
the embedded attributes: state OPEN, _read_expect set to expect_preface, the
connection input window initialized at the target, empty stream map, queues and
buffers. -/
def create_conn_model : H2Conn :=
  { state := .connOpen
    streams := []
    pullMaxOpen := 0
    pullMaxProcessed := 0
    pushMaxOpen := 0
    num := ⟨0, 0, 0, 0, 0, 0, 0, 0⟩
    pendingReqs := []
    inputWindowC := ⟨(HOST_CONNECTION_WINDOW_SIZE : Int)⟩
    peerInitialWindowSize := 65535
    writeBuf := []
    writeBufInFlight := false
    writeTimerLinked := false
    readExpect := .expectPreface
    gracefulCb := none
    gracefulTimerMs := none
    processedRequests := []
    receivedAnyRequest := false
    closedNow := false }

/-- Modelled from the spec: h2o_http2_stream_open (stream.c, not under src/).
Creates the per-stream record in IDLE state carrying the received priority and
registers it in the stream map; a stream created without a request is a
priority-only stream and counts toward num_streams.priority.open (spec section 3
counters and section 8 scenario 6). -/
def h2o_http2_stream_open (conn : H2Conn) (streamId : Nat) (priority : PriorityRecord) :
    H2Conn × H2Stream :=
  let s : H2Stream :=
    { streamId := streamId
      state := .idle
      reqBodyState := .rbNone
      hasProceedReq := false
      hasWriteReqCb := false
      streamed := false
      isTunnelReq := false
      blockedByServer := false
      processCalled := false
      canStreamRequest := false
      hasReqBodyBuf := false
      contentLength := none
      reqBodyBytesReceived := 0
      bodyBufLen := 0
      outputWindow := ⟨(conn.peerInitialWindowSize : Int)⟩
      inputWindowW := ⟨(HOST_STREAM_INITIAL_WINDOW_SIZE : Int)⟩
      bytesUnnotified := 0
      hasPendingData := false
      schedulerActive := false
      schedulerWeight := priority.weight
      receivedPriority := priority }
  ({ conn with
      streams := conn.streams ++ [s],
      num := { conn.num with priorityOpen := conn.num.priorityOpen + 1 } }, s)

/-- Modelled from the spec: h2o_http2_stream_prepare_for_request (stream.c, not
under src/).  The stream starts receiving a request: state RECV_HEADERS (spec
section 4.4, IDLE with HEADERS goes to RECV_HEADERS), it stops being a
priority-only stream and counts as an open stream of its class, and the max-open
id of its class advances (spec section 3: max_open is monotonically
non-decreasing and a newly opened pull stream id must exceed it). -/
def h2o_http2_stream_prepare_for_request (conn : H2Conn) (s : H2Stream) :
    H2Conn × H2Stream :=
  let conn1 : H2Conn :=
    if h2o_http2_stream_is_push s.streamId then
      { conn with
        pushMaxOpen := max conn.pushMaxOpen s.streamId,
        num := { conn.num with
          priorityOpen := conn.num.priorityOpen - 1,
          pushOpen := conn.num.pushOpen + 1 } }
    else
      { conn with
        pullMaxOpen := max conn.pullMaxOpen s.streamId,
        num := { conn.num with
          priorityOpen := conn.num.priorityOpen - 1,
          pullOpen := conn.num.pullOpen + 1 } }
  let s1 : H2Stream := { s with state := .recvHeaders }
  (putStream conn1 s1, s1)

/-- Decoded HEADERS frame as handed to handle_headers_frame: flags and the
priority block (which holds the default priority when the PRIORITY flag is
absent).  The header block itself is decoded by the external HPACK codec. -/
structure HeadersFrame where
  streamId : Nat
  endStream : Bool
  endHeaders : Bool
  priorityFlag : Bool
  priority : PriorityRecord
deriving DecidableEq

/-- Outcome of handle_headers_frame.  The trailers and requestHeaders outcomes
mark the hand-off to handle_trailing_headers and handle_incoming_request, whose
header parsing goes through the external HPACK codec. -/
inductive HeadersOutcome where
  | connectionError (code : Nat) (desc : String)
  | trailers (streamId : Nat)
  | continuationExpected
  | requestHeaders (streamId : Nat)
deriving DecidableEq

/-- Embedding of handle_headers_frame (lines 949-1021), after the external payload
decoding and up to the hand-off to the HPACK-parsing stages.  set_priority
(lines 755-853) manipulates the external scheduler tree; the embedding records
the received priority and the resulting weight of the scheduler reference. -/
def handle_headers_frame (conn : H2Conn) (f : HeadersFrame) : H2Conn × HeadersOutcome :=
  if f.streamId % 2 = 0 then
    (conn, .connectionError H2_ERROR_PROTOCOL "invalid stream id in HEADERS frame")
  else if f.streamId ≤ conn.pullMaxOpen then
    match h2o_http2_conn_get_stream conn f.streamId with
    | none => (conn, .connectionError H2_ERROR_STREAM_CLOSED "closed stream id in HEADERS frame")
    | some s =>
      if ¬ (s.reqBodyState = .rbOpenBeforeFirstFrame ∨ s.reqBodyState = .rbOpen) then
        (conn, .connectionError H2_ERROR_PROTOCOL "invalid stream id in HEADERS frame")
      else if s.isTunnelReq then
        (conn, .connectionError H2_ERROR_PROTOCOL "trailer cannot be used in a CONNECT request")
      else if ¬ f.endStream then
        (conn, .connectionError H2_ERROR_PROTOCOL "trailing HEADERS frame MUST have END_STREAM flag set")
      else if ¬ f.endHeaders then
        ({ conn with readExpect := .expectContinuation }, .continuationExpected)
      else (conn, .trailers f.streamId)
  else if f.streamId = f.priority.dependency then
    (conn, .connectionError H2_ERROR_PROTOCOL "stream cannot depend on itself")
  else
    let r :=
      match h2o_http2_conn_get_stream conn f.streamId with
      | some s =>
        let s1 : H2Stream :=
          if f.priorityFlag then
            { s with receivedPriority := f.priority, schedulerWeight := f.priority.weight }
          else s
        (putStream conn s1, s1)
      | none =>
        let conn1 : H2Conn := { conn with receivedAnyRequest := true }
        h2o_http2_stream_open conn1 f.streamId f.priority
    let r2 := h2o_http2_stream_prepare_for_request r.1 r.2
    let s3 : H2Stream :=
      if ¬ f.endStream then { r2.2 with hasReqBodyBuf := true } else r2.2
    let conn3 := putStream r2.1 s3
    if f.endHeaders then (conn3, .requestHeaders f.streamId)
    else ({ conn3 with readExpect := .expectContinuation }, .continuationExpected)

/-- Decoded PRIORITY frame as handed to handle_priority_frame. -/
structure PriorityFrame where
  streamId : Nat
  priority : PriorityRecord
deriving DecidableEq

/-- Embedding of handle_priority_frame (lines 1023-1064), after the external
payload decoding.  set_priority manipulates the external scheduler tree; the
embedding records the received priority and the resulting weight of the
scheduler reference (priority changes to pushed streams carrying weight 257 are
ignored, line 1041). -/
def handle_priority_frame (cfg : H2Config) (conn : H2Conn) (f : PriorityFrame) :
    H2Conn × HRes :=
  if f.streamId = f.priority.dependency then
    (conn, .connError H2_ERROR_PROTOCOL "stream cannot depend on itself")
  else
    match h2o_http2_conn_get_stream conn f.streamId with
    | some s =>
      let s1 : H2Stream := { s with receivedPriority := f.priority }
      let s2 : H2Stream :=
        if s1.schedulerWeight ≠ 257 then { s1 with schedulerWeight := f.priority.weight }
        else s1
      (putStream conn s2, .ok)
    | none =>
      if h2o_http2_stream_is_push f.streamId then (conn, .ok)
      else if f.streamId ≤ conn.pullMaxOpen then (conn, .ok)
      else if conn.num.priorityOpen ≥ cfg.maxStreamsForPriority then
        (conn, .connError H2_ERROR_ENHANCE_YOUR_CALM "too many streams in idle/closed state")
      else
        let r := h2o_http2_stream_open conn f.streamId f.priority
        (putStream r.1 { r.2 with schedulerWeight := f.priority.weight }, .ok)

/-- Whether a list of frames contains a connection-level WINDOW_UPDATE (stream id 0). -/
def hasConnWU (l : List OutFrame) : Bool :=
  l.any (fun fr =>
    match fr with
    | .windowUpdateFrame sid _ => sid == 0
    | _ => false)

/-- A stream currently receiving a request body, used as a concrete test input. -/
def mkStream (id : Nat) : H2Stream :=
  ⟨id, .recvBody, .rbOpen, false, false, false, false, false, false, false, true,
   none, 0, 0, ⟨65535⟩, ⟨65535⟩, 0, false, false, 16, ⟨0, 16, false⟩⟩

/-- A configuration with the reference default values, used as a concrete test input. -/
def cfgDefault : H2Config :=
  ⟨100, 1, 100, 1048576, 4194304, 0⟩

/-- Concrete input for the C2 witness: a configuration whose concurrency limit is 0. -/
def cfgNoConcurrency : H2Config :=
  ⟨0, 1, 100, 1048576, 4194304, 0⟩

/-- Concrete input for the C3 failing input: a connection holding one stream whose
output window is saturated at 2^31 - 1. -/
def conn3bug : H2Conn :=
  { create_conn_model with
    pullMaxOpen := 1,
    streams := [{ mkStream 1 with outputWindow := ⟨2147483647⟩ }] }

/-- Concrete input for the C3 failing input: a SETTINGS frame raising the initial
window size of the peer from 65535 to 65536 (delta 1). -/
def frame3bug : SettingsFrame :=
  ⟨0, false, 6, 65536⟩

/-- Concrete input for the C4 counterexample: a connection already half-closed when
the one-second graceful-shutdown timer fires. -/
def conn4cex : H2Conn :=
  { create_conn_model with state := .halfClosed, gracefulCb := some .resendGoaway }

/-- Concrete input for the C4 counterexample: a configuration with a positive
graceful shutdown timeout. -/
def cfg4cex : H2Config :=
  ⟨100, 1, 100, 1048576, 4194304, 5000⟩

/-- Concrete input for the C5 witness: a connection that has sent GOAWAY. -/
def conn5w : H2Conn :=
  { create_conn_model with state := .halfClosed }

/-- Concrete input for the C5 witness: a pull stream with id above max_open. -/
def s5w : H2Stream :=
  { mkStream 3 with state := .recvHeaders, reqBodyState := .rbNone }

/-- Concrete input for the C6 witness: a small request-entity limit. -/
def cfg6w : H2Config :=
  ⟨100, 1, 100, 10, 4194304, 0⟩

/-- Concrete input for the C6 witness: a stream that has received 8 body bytes. -/
def s6w : H2Stream :=
  { mkStream 5 with reqBodyBytesReceived := 8 }

/-- Concrete input for the C6 witness: the connection holding s6w. -/
def conn6w : H2Conn :=
  { create_conn_model with streams := [s6w], pullMaxOpen := 5 }

/-- Concrete input for the C8 witness: a connection whose max open pull id is 5
with an empty stream map. -/
def conn8w : H2Conn :=
  { create_conn_model with pullMaxOpen := 5 }

/-- Concrete input for the C8 witness: a DATA frame for the closed stream 3. -/
def f8w : DataFrame :=
  ⟨3, 100, 100, false⟩

/-- Concrete input for the C1 witness: a DATA frame whose length drains the
connection window to at most half the target. -/
def f1w : DataFrame :=
  ⟨1, 9000000, 9000000, false⟩

/-- Concrete input for the C9 counterexample: a connection with stream 1 receiving
its request body. -/
def conn9cex : H2Conn :=
  { create_conn_model with streams := [mkStream 1], pullMaxOpen := 1 }

/-- Concrete input for the C9 counterexample: a trailing HEADERS frame on stream 1
whose declared priority dependency is stream 1 itself. -/
def frame9cex : HeadersFrame :=
  ⟨1, true, true, true, ⟨1, 16, true⟩⟩

/-- Concrete input for the C9 witness: a HEADERS frame with an even stream id. -/
def frame9w : HeadersFrame :=
  ⟨2, false, true, false, ⟨0, 16, false⟩⟩

/-- Concrete input for the C10 counterexample: a configuration allowing at most 10
priority-only streams. -/
def cfg10cex : H2Config :=
  ⟨100, 1, 10, 1048576, 4194304, 0⟩

/-- Concrete input for the C10 counterexample: a connection at the priority-only
stream limit. -/
def conn10cex : H2Conn :=
  { create_conn_model with pullMaxOpen := 1, num := ⟨0, 0, 0, 0, 10, 0, 0, 0⟩ }

/-- Concrete input for the C10 counterexample: a PRIORITY frame for the never
opened pull stream 9 declaring itself as its own dependency. -/
def frame10cex : PriorityFrame :=
  ⟨9, ⟨9, 256, true⟩⟩

/-- Concrete input for the C10 witness: a PRIORITY frame for the never opened pull
stream 9 with a valid dependency. -/
def frame10w : PriorityFrame :=
  ⟨9, ⟨0, 16, false⟩⟩

/-- The stream record after the byte counting of handle_request_body_chunk on a
first body frame: the sub-state advances to OPEN and the received counter grows
by the payload length. -/
def chunkCountedFirst (s : H2Stream) (payloadLen : Nat) : H2Stream :=
  { s with reqBodyState := .rbOpen,
           reqBodyBytesReceived := s.reqBodyBytesReceived + payloadLen }

/-- The stream record after the byte counting of handle_request_body_chunk on a
subsequent body frame. -/
def chunkCounted (s : H2Stream) (payloadLen : Nat) : H2Stream :=
  { s with reqBodyBytesReceived := s.reqBodyBytesReceived + payloadLen }

@[simp] theorem putStream_writeBuf (conn : H2Conn) (s : H2Stream) :
    (putStream conn s).writeBuf = conn.writeBuf := rfl

@[simp] theorem putStream_state (conn : H2Conn) (s : H2Stream) :
    (putStream conn s).state = conn.state := rfl

@[simp] theorem putStream_closedNow (conn : H2Conn) (s : H2Stream) :
    (putStream conn s).closedNow = conn.closedNow := rfl

@[simp] theorem putStream_inputWindowC (conn : H2Conn) (s : H2Stream) :
    (putStream conn s).inputWindowC = conn.inputWindowC := rfl

@[simp] theorem putStream_pullMaxOpen (conn : H2Conn) (s : H2Stream) :
    (putStream conn s).pullMaxOpen = conn.pullMaxOpen := rfl

@[simp] theorem putStream_pendingReqs (conn : H2Conn) (s : H2Stream) :
    (putStream conn s).pendingReqs = conn.pendingReqs := rfl

@[simp] theorem putStream_processedRequests (conn : H2Conn) (s : H2Stream) :
    (putStream conn s).processedRequests = conn.processedRequests := rfl

@[simp] theorem request_gathered_write_writeBuf (conn : H2Conn) :
    (request_gathered_write conn).writeBuf = conn.writeBuf := by
  unfold request_gathered_write; split <;> rfl

@[simp] theorem request_gathered_write_state (conn : H2Conn) :
    (request_gathered_write conn).state = conn.state := by
  unfold request_gathered_write; split <;> rfl

@[simp] theorem request_gathered_write_streams (conn : H2Conn) :
    (request_gathered_write conn).streams = conn.streams := by
  unfold request_gathered_write; split <;> rfl

@[simp] theorem request_gathered_write_closedNow (conn : H2Conn) :
    (request_gathered_write conn).closedNow = conn.closedNow := by
  unfold request_gathered_write; split <;> rfl

@[simp] theorem request_gathered_write_inputWindowC (conn : H2Conn) :
    (request_gathered_write conn).inputWindowC = conn.inputWindowC := by
  unfold request_gathered_write; split <;> rfl

@[simp] theorem request_gathered_write_pullMaxOpen (conn : H2Conn) :
    (request_gathered_write conn).pullMaxOpen = conn.pullMaxOpen := by
  unfold request_gathered_write; split <;> rfl

@[simp] theorem request_gathered_write_pendingReqs (conn : H2Conn) :
    (request_gathered_write conn).pendingReqs = conn.pendingReqs := by
  unfold request_gathered_write; split <;> rfl

@[simp] theorem request_gathered_write_processedRequests (conn : H2Conn) :
    (request_gathered_write conn).processedRequests = conn.processedRequests := by
  unfold request_gathered_write; split <;> rfl

@[simp] theorem request_gathered_write_gracefulCb (conn : H2Conn) :
    (request_gathered_write conn).gracefulCb = conn.gracefulCb := by
  unfold request_gathered_write; split <;> rfl

@[simp] theorem request_gathered_write_gracefulTimerMs (conn : H2Conn) :
    (request_gathered_write conn).gracefulTimerMs = conn.gracefulTimerMs := by
  unfold request_gathered_write; split <;> rfl

@[simp] theorem request_gathered_write_readExpect (conn : H2Conn) :
    (request_gathered_write conn).readExpect = conn.readExpect := by
  unfold request_gathered_write; split <;> rfl

@[simp] theorem conn_request_write_writeBuf (conn : H2Conn) :
    (h2o_http2_conn_request_write conn).writeBuf = conn.writeBuf := by
  unfold h2o_http2_conn_request_write; split <;> simp

@[simp] theorem conn_request_write_state (conn : H2Conn) :
    (h2o_http2_conn_request_write conn).state = conn.state := by
  unfold h2o_http2_conn_request_write; split <;> simp

@[simp] theorem conn_request_write_streams (conn : H2Conn) :
    (h2o_http2_conn_request_write conn).streams = conn.streams := by
  unfold h2o_http2_conn_request_write; split <;> simp

@[simp] theorem conn_request_write_closedNow (conn : H2Conn) :
    (h2o_http2_conn_request_write conn).closedNow = conn.closedNow := by
  unfold h2o_http2_conn_request_write; split <;> simp

@[simp] theorem conn_request_write_inputWindowC (conn : H2Conn) :
    (h2o_http2_conn_request_write conn).inputWindowC = conn.inputWindowC := by
  unfold h2o_http2_conn_request_write; split <;> simp

@[simp] theorem conn_request_write_pullMaxOpen (conn : H2Conn) :
    (h2o_http2_conn_request_write conn).pullMaxOpen = conn.pullMaxOpen := by
  unfold h2o_http2_conn_request_write; split <;> simp

@[simp] theorem conn_request_write_pendingReqs (conn : H2Conn) :
    (h2o_http2_conn_request_write conn).pendingReqs = conn.pendingReqs := by
  unfold h2o_http2_conn_request_write; split <;> simp

@[simp] theorem conn_request_write_processedRequests (conn : H2Conn) :
    (h2o_http2_conn_request_write conn).processedRequests = conn.processedRequests := by
  unfold h2o_http2_conn_request_write; split <;> simp

@[simp] theorem conn_request_write_gracefulCb (conn : H2Conn) :
    (h2o_http2_conn_request_write conn).gracefulCb = conn.gracefulCb := by
  unfold h2o_http2_conn_request_write; split <;> simp

@[simp] theorem conn_request_write_gracefulTimerMs (conn : H2Conn) :
    (h2o_http2_conn_request_write conn).gracefulTimerMs = conn.gracefulTimerMs := by
  unfold h2o_http2_conn_request_write; split <;> simp

@[simp] theorem conn_request_write_readExpect (conn : H2Conn) :
    (h2o_http2_conn_request_write conn).readExpect = conn.readExpect := by
  unfold h2o_http2_conn_request_write; split <;> simp

theorem close_connection_state (conn : H2Conn) :
    (close_connection conn).state = .isClosing := by
  simp only [close_connection, close_connection_now]
  split <;> rfl

/-- Claim C4 (amended): initiating graceful shutdown immediately sends
GOAWAY(last-id INT32_MAX, NO_ERROR, debug data "graceful shutdown") exactly when
the connection is not already half-closed, and arms a 1-second timer running
graceful_shutdown_resend_goaway.  When that timer fires while the connection is
still not half-closed, a second GOAWAY carrying pull_stream_ids.max_open and
NO_ERROR is sent and, if and only if graceful_shutdown_timeout is positive, a
final timer of that duration is armed whose expiry forcibly closes the
connection; when the connection is already half-closed at that point, no GOAWAY
is sent and no further timer is armed. -/
theorem graceful_shutdown_staged (cfg : H2Config) (conn conn2 conn3 : H2Conn)
    (_hcb : conn.gracefulCb = none) :
    ((conn.state = .connOpen →
        (initiate_graceful_shutdown conn).writeBuf =
          conn.writeBuf ++ [.goawayFrame 2147483647 H2_ERROR_NONE "graceful shutdown"]) ∧
      (conn.state ≠ .connOpen → (initiate_graceful_shutdown conn).writeBuf = conn.writeBuf) ∧
      (initiate_graceful_shutdown conn).gracefulTimerMs = some 1000 ∧
      (initiate_graceful_shutdown conn).gracefulCb = some .resendGoaway) ∧
    (conn2.state = .connOpen →
      (graceful_shutdown_resend_goaway cfg conn2).writeBuf =
        conn2.writeBuf ++ [.goawayFrame conn2.pullMaxOpen H2_ERROR_NONE ""] ∧
      (graceful_shutdown_resend_goaway cfg conn2).state = .halfClosed ∧
      (graceful_shutdown_resend_goaway cfg conn2).gracefulTimerMs =
        (if 0 < cfg.gracefulShutdownTimeout then some cfg.gracefulShutdownTimeout else none) ∧
      (0 < cfg.gracefulShutdownTimeout →
        (graceful_shutdown_resend_goaway cfg conn2).gracefulCb = some .closeStraggler)) ∧
    (conn2.state ≠ .connOpen →
      (graceful_shutdown_resend_goaway cfg conn2).writeBuf = conn2.writeBuf ∧
      (graceful_shutdown_resend_goaway cfg conn2).gracefulTimerMs = none) ∧
    (graceful_shutdown_close_straggler conn3).state = .isClosing := by
  refine ⟨⟨?_, ?_, ?_, ?_⟩, ?_, ?_, ?_⟩
  · intro h
    unfold initiate_graceful_shutdown
    simp [h, ConnState.toNat]
  · intro h
    unfold initiate_graceful_shutdown
    cases hs : conn.state
    · exact absurd hs h
    · simp [hs, ConnState.toNat]
    · simp [hs, ConnState.toNat]
  · unfold initiate_graceful_shutdown
    cases hs : conn.state <;> simp [hs, ConnState.toNat]
  · unfold initiate_graceful_shutdown
    cases hs : conn.state <;> simp [hs, ConnState.toNat]
  · intro h
    unfold graceful_shutdown_resend_goaway enqueue_goaway
    by_cases ht : 0 < cfg.gracefulShutdownTimeout <;>
      simp [h, ConnState.toNat, ht]
  · intro h
    unfold graceful_shutdown_resend_goaway
    cases hs : conn2.state
    · exact absurd hs h
    · simp [hs, ConnState.toNat]
    · simp [hs, ConnState.toNat]
  · unfold graceful_shutdown_close_straggler
    exact close_connection_state _

/-- Counterexample to claim C4 as stated: when the one-second timer fires on a
connection that is already half-closed, no second GOAWAY is emitted and, even
though graceful_shutdown_timeout is positive, no final timer is armed. -/
theorem graceful_shutdown_resend_skipped_when_half_closed :
    (graceful_shutdown_resend_goaway cfg4cex conn4cex).writeBuf = conn4cex.writeBuf ∧
    0 < cfg4cex.gracefulShutdownTimeout ∧
    (graceful_shutdown_resend_goaway cfg4cex conn4cex).gracefulTimerMs = none := by
  refine ⟨?_, by decide, ?_⟩ <;> rfl

/-- Witness for claim C4 at a concrete connection in the OPEN state. -/
theorem graceful_shutdown_staged_witness :
    (initiate_graceful_shutdown create_conn_model).writeBuf =
      create_conn_model.writeBuf ++
        [.goawayFrame 2147483647 H2_ERROR_NONE "graceful shutdown"] ∧
    (initiate_graceful_shutdown create_conn_model).gracefulTimerMs = some 1000 ∧
    (graceful_shutdown_close_straggler create_conn_model).state = .isClosing :=
  ⟨(graceful_shutdown_staged cfg4cex create_conn_model create_conn_model create_conn_model
      rfl).1.1 rfl,
   (graceful_shutdown_staged cfg4cex create_conn_model create_conn_model create_conn_model
      rfl).1.2.2.1,
   (graceful_shutdown_staged cfg4cex create_conn_model create_conn_model create_conn_model
      rfl).2.2.2⟩

@[simp] theorem stream_reset_writeBuf (conn : H2Conn) (s : H2Stream) :
    (h2o_http2_stream_reset conn s).writeBuf = conn.writeBuf := rfl

@[simp] theorem stream_reset_state (conn : H2Conn) (s : H2Stream) :
    (h2o_http2_stream_reset conn s).state = conn.state := rfl

@[simp] theorem stream_reset_closedNow (conn : H2Conn) (s : H2Stream) :
    (h2o_http2_stream_reset conn s).closedNow = conn.closedNow := rfl

@[simp] theorem stream_reset_inputWindowC (conn : H2Conn) (s : H2Stream) :
    (h2o_http2_stream_reset conn s).inputWindowC = conn.inputWindowC := rfl

@[simp] theorem stream_reset_processedRequests (conn : H2Conn) (s : H2Stream) :
    (h2o_http2_stream_reset conn s).processedRequests = conn.processedRequests := rfl

@[simp] theorem stream_reset_pullMaxOpen (conn : H2Conn) (s : H2Stream) :
    (h2o_http2_stream_reset conn s).pullMaxOpen = conn.pullMaxOpen := rfl

@[simp] theorem stream_send_error_writeBuf (conn : H2Conn) (streamId errnum : Nat) :
    (stream_send_error conn streamId errnum).writeBuf =
      conn.writeBuf ++ [.rstStreamFrame streamId errnum] := by
  unfold stream_send_error; simp

@[simp] theorem stream_send_error_state (conn : H2Conn) (streamId errnum : Nat) :
    (stream_send_error conn streamId errnum).state = conn.state := by
  unfold stream_send_error; simp

@[simp] theorem stream_send_error_closedNow (conn : H2Conn) (streamId errnum : Nat) :
    (stream_send_error conn streamId errnum).closedNow = conn.closedNow := by
  unfold stream_send_error; simp

@[simp] theorem stream_send_error_inputWindowC (conn : H2Conn) (streamId errnum : Nat) :
    (stream_send_error conn streamId errnum).inputWindowC = conn.inputWindowC := by
  unfold stream_send_error; simp

@[simp] theorem stream_send_error_streams (conn : H2Conn) (streamId errnum : Nat) :
    (stream_send_error conn streamId errnum).streams = conn.streams := by
  unfold stream_send_error; simp

@[simp] theorem stream_send_error_pendingReqs (conn : H2Conn) (streamId errnum : Nat) :
    (stream_send_error conn streamId errnum).pendingReqs = conn.pendingReqs := by
  unfold stream_send_error; simp

@[simp] theorem stream_send_error_processedRequests (conn : H2Conn) (streamId errnum : Nat) :
    (stream_send_error conn streamId errnum).processedRequests = conn.processedRequests := by
  unfold stream_send_error; simp

@[simp] theorem stream_send_error_pullMaxOpen (conn : H2Conn) (streamId errnum : Nat) :
    (stream_send_error conn streamId errnum).pullMaxOpen = conn.pullMaxOpen := by
  unfold stream_send_error; simp

/-- Claim C5: after GOAWAY has been sent, a request arriving on a pull stream
whose id exceeds pull_stream_ids.max_open is answered with
RST_STREAM(REFUSED_STREAM) and dropped: it is removed from the stream map, it is
never placed on the pending-request queue, and it is never dispatched to the
application. -/
theorem disregarded_request_reset_and_dropped (cfg : H2Config) (conn : H2Conn) (s : H2Stream)
    (hpull : h2o_http2_stream_is_push s.streamId = false)
    (hid : conn.pullMaxOpen < s.streamId)
    (_hgoaway : conn.state = .halfClosed) :
    (execute_or_enqueue_request cfg conn s).writeBuf =
      conn.writeBuf ++ [.rstStreamFrame s.streamId H2_ERROR_REFUSED_STREAM] ∧
    (execute_or_enqueue_request cfg conn s).pendingReqs =
      conn.pendingReqs.filter (fun t => t.streamId != s.streamId) ∧
    (∀ t ∈ (execute_or_enqueue_request cfg conn s).pendingReqs, t.streamId ≠ s.streamId) ∧
    (execute_or_enqueue_request cfg conn s).processedRequests = conn.processedRequests ∧
    (∀ t ∈ (execute_or_enqueue_request cfg conn s).streams, t.streamId ≠ s.streamId) := by
  have hcond : (¬ h2o_http2_stream_is_push s.streamId ∧ s.streamId > conn.pullMaxOpen) := by
    constructor
    · simp [hpull]
    · exact hid
  unfold execute_or_enqueue_request reset_stream_if_disregarded
  rw [if_pos hcond]
  simp only [if_pos rfl]
  refine ⟨rfl, rfl, ?_, rfl, ?_⟩
  · intro t ht
    have := List.of_mem_filter ht
    simpa using this
  · intro t ht
    have := List.of_mem_filter ht
    simpa using this

/-- Witness for claim C5 at a concrete connection that has sent GOAWAY and a
request on pull stream 3 above max_open 0. -/
theorem disregarded_request_reset_and_dropped_witness :
    (execute_or_enqueue_request cfgDefault conn5w s5w).writeBuf =
      conn5w.writeBuf ++ [.rstStreamFrame s5w.streamId H2_ERROR_REFUSED_STREAM] ∧
    (execute_or_enqueue_request cfgDefault conn5w s5w).processedRequests =
      conn5w.processedRequests :=
  ⟨(disregarded_request_reset_and_dropped cfgDefault conn5w s5w rfl (by decide) rfl).1,
   (disregarded_request_reset_and_dropped cfgDefault conn5w s5w rfl (by decide) rfl).2.2.2.1⟩

theorem map_put_of_no_match (l : List H2Stream) (s2 : H2Stream)
    (h : ∀ t ∈ l, t.streamId ≠ s2.streamId) :
    l.map (fun t => if t.streamId == s2.streamId then s2 else t) = l := by
  induction l with
  | nil => rfl
  | cons a l ih =>
    have ha : ¬ ((a.streamId == s2.streamId) = true) := by
      simp [h a (by simp)]
    rw [List.map_cons, if_neg ha, ih (fun t ht => h t (by simp [ht]))]

theorem put_append_new (l : List H2Stream) (s1 s2 : H2Stream)
    (hid : s1.streamId = s2.streamId)
    (h : ∀ t ∈ l, t.streamId ≠ s2.streamId) :
    (l ++ [s1]).map (fun t => if t.streamId == s2.streamId then s2 else t) = l ++ [s2] := by
  rw [List.map_append, map_put_of_no_match l s2 h]
  simp [hid]

theorem put_append_new_ex (l : List H2Stream) (s1 s2 : H2Stream)
    (hid : s1.streamId = s2.streamId)
    (h : ∀ t ∈ l, t.streamId ≠ s2.streamId) :
    ∃ t, (l ++ [s1]).map (fun u => if u.streamId == s2.streamId then s2 else u) = l ++ [t] ∧
      t.streamId = s2.streamId :=
  ⟨s2, put_append_new l s1 s2 hid h, rfl⟩

theorem no_match_of_find_none (l : List H2Stream) (sid : Nat)
    (h : l.find? (fun t => t.streamId == sid) = none) :
    ∀ t ∈ l, t.streamId ≠ sid := by
  intro t ht
  have := List.find?_eq_none.mp h t ht
  simpa using this

/-- Claim C10 (amended): apart from the self-dependency check performed first
(which rejects a frame whose declared dependency is its own stream id with
PROTOCOL_ERROR), a PRIORITY frame for a never-opened pull stream id above
pull_stream_ids.max_open creates a priority-only stream exactly while
num_streams.priority.open is below max_streams_for_priority, is a connection
error ENHANCE_YOUR_CALM at or beyond that limit, and PRIORITY frames for closed
pull streams (id at most max_open) or for unopened push streams are silently
ignored. -/
theorem priority_frame_admission (cfg : H2Config) (conn : H2Conn) (f : PriorityFrame)
    (hdep : f.streamId ≠ f.priority.dependency)
    (habsent : h2o_http2_conn_get_stream conn f.streamId = none) :
    (h2o_http2_stream_is_push f.streamId = true →
      handle_priority_frame cfg conn f = (conn, .ok)) ∧
    (h2o_http2_stream_is_push f.streamId = false → f.streamId ≤ conn.pullMaxOpen →
      handle_priority_frame cfg conn f = (conn, .ok)) ∧
    (h2o_http2_stream_is_push f.streamId = false → conn.pullMaxOpen < f.streamId →
      cfg.maxStreamsForPriority ≤ conn.num.priorityOpen →
      handle_priority_frame cfg conn f =
        (conn, .connError H2_ERROR_ENHANCE_YOUR_CALM "too many streams in idle/closed state")) ∧
    (h2o_http2_stream_is_push f.streamId = false → conn.pullMaxOpen < f.streamId →
      conn.num.priorityOpen < cfg.maxStreamsForPriority →
      (handle_priority_frame cfg conn f).2 = .ok ∧
      (handle_priority_frame cfg conn f).1.num.priorityOpen = conn.num.priorityOpen + 1 ∧
      ∃ t, (handle_priority_frame cfg conn f).1.streams = conn.streams ++ [t] ∧
        t.streamId = f.streamId) := by
  unfold handle_priority_frame
  rw [if_neg hdep, habsent]
  refine ⟨?_, ?_, ?_, ?_⟩
  · intro hpush
    simp [hpush]
  · intro hpush hle
    simp [hpush, hle]
  · intro hpush hgt hlim
    rw [if_neg (by simp [hpush])]
    rw [if_neg (by omega)]
    rw [if_pos hlim]
  · intro hpush hgt hlim
    rw [if_neg (by simp [hpush])]
    rw [if_neg (by omega)]
    rw [if_neg (by omega)]
    unfold h2o_http2_stream_open putStream
    refine ⟨?_, ?_, ?_⟩
    · rfl
    · rfl
    · exact put_append_new_ex conn.streams _ _ rfl
        (no_match_of_find_none conn.streams f.streamId habsent)

/-- Counterexample to claim C10 as stated: a PRIORITY frame for the never-opened
pull stream 9 above max_open, arriving while the priority-only stream count is at
the limit, is rejected as PROTOCOL_ERROR (because it declares itself as its own
dependency), not as ENHANCE_YOUR_CALM. -/
theorem priority_frame_self_dep_not_calm :
    handle_priority_frame cfg10cex conn10cex frame10cex =
      (conn10cex, .connError H2_ERROR_PROTOCOL "stream cannot depend on itself") ∧
    cfg10cex.maxStreamsForPriority ≤ conn10cex.num.priorityOpen ∧
    h2o_http2_stream_is_push frame10cex.streamId = false ∧
    conn10cex.pullMaxOpen < frame10cex.streamId ∧
    h2o_http2_conn_get_stream conn10cex frame10cex.streamId = none ∧
    H2_ERROR_PROTOCOL ≠ H2_ERROR_ENHANCE_YOUR_CALM := by
  refine ⟨rfl, by decide, rfl, by decide, rfl, by decide⟩

/-- Witness for claim C10 at a concrete connection with no streams and a PRIORITY
frame for the never-opened pull stream 9. -/
theorem priority_frame_admission_witness :
    (handle_priority_frame cfg10cex create_conn_model frame10w).2 = .ok ∧
    (handle_priority_frame cfg10cex create_conn_model frame10w).1.num.priorityOpen =
      create_conn_model.num.priorityOpen + 1 :=
  ⟨((priority_frame_admission cfg10cex create_conn_model frame10w (by decide) rfl).2.2.2
      rfl (by decide) (by decide)).1,
   ((priority_frame_admission cfg10cex create_conn_model frame10w (by decide) rfl).2.2.2
      rfl (by decide) (by decide)).2.1⟩

/-- Claim C9 (amended): a HEADERS frame with an even stream id is rejected as a
connection error PROTOCOL_ERROR, and a HEADERS frame for a not-yet-opened stream
id (odd and above pull_stream_ids.max_open) whose declared priority dependency
equals its own stream id is likewise rejected as PROTOCOL_ERROR; in both cases
the connection state is returned unchanged, so no stream is created or modified.
Trailing HEADERS for streams at or below max_open are not subject to the
self-dependency check. -/
theorem headers_frame_early_rejects (conn : H2Conn) (f : HeadersFrame) :
    (f.streamId % 2 = 0 →
      handle_headers_frame conn f =
        (conn, .connectionError H2_ERROR_PROTOCOL "invalid stream id in HEADERS frame")) ∧
    (f.streamId % 2 = 1 → conn.pullMaxOpen < f.streamId →
      f.streamId = f.priority.dependency →
      handle_headers_frame conn f =
        (conn, .connectionError H2_ERROR_PROTOCOL "stream cannot depend on itself")) := by
  constructor
  · intro h
    unfold handle_headers_frame
    rw [if_pos h]
  · intro hodd hgt hdep
    unfold handle_headers_frame
    rw [if_neg (by omega)]
    rw [if_neg (by omega)]
    rw [if_pos hdep]

/-- Counterexample to claim C9 as stated: a trailing HEADERS frame on the open
stream 1 (at most max_open) declaring a priority dependency on itself is not
rejected; it is processed as trailers. -/
theorem headers_trailer_self_dep_not_rejected :
    handle_headers_frame conn9cex frame9cex = (conn9cex, .trailers 1) ∧
    frame9cex.streamId = frame9cex.priority.dependency ∧
    (∀ code desc, HeadersOutcome.trailers 1 ≠ .connectionError code desc) := by
  refine ⟨rfl, rfl, ?_⟩
  intro code desc h
  exact HeadersOutcome.noConfusion h

/-- Witness for claim C9 at a concrete HEADERS frame with the even stream id 2. -/
theorem headers_frame_early_rejects_witness :
    handle_headers_frame create_conn_model frame9w =
      (create_conn_model,
       .connectionError H2_ERROR_PROTOCOL "invalid stream id in HEADERS frame") :=
  (headers_frame_early_rejects create_conn_model frame9w).1 rfl

/-- Claim C3 (code evaluated at the failing input): a SETTINGS frame raising the
initial window size of the peer by 1 while a stream output window stands at
2^31 - 1 makes that adjustment overflow, yet handle_settings_frame discards the
result of update_stream_output_window: the handler returns ok (no
FLOW_CONTROL_ERROR, no connection failure), the connection state is unchanged,
and the saturated stream window is silently left unadjusted. -/
theorem settings_overflow_not_connection_error :
    (handle_settings_frame conn3bug frame3bug).2 = .ok ∧
    (handle_settings_frame conn3bug frame3bug).1.state = conn3bug.state ∧
    (handle_settings_frame conn3bug frame3bug).1.closedNow = false ∧
    (handle_settings_frame conn3bug frame3bug).1.streams.map
        (fun s => s.outputWindow.avail) = [2147483647] ∧
    ((2147483647 : Int) +
        ((frame3bug.newInitialWindowSize : Int) - (conn3bug.peerInitialWindowSize : Int)) >
      INT32_MAX) := by
  refine ⟨rfl, rfl, rfl, ?_, by decide⟩
  rfl

/-- Claim C2: whenever the pending-request queue is scanned, an examined queued
stream is dispatched if and only if, at the moment it is examined,
pull.half_closed + push.half_closed is below
max_concurrent_requests_per_connection and, when the stream is a streaming
request (proceed_req installed), the number of in-progress streaming requests
minus the tunnels is below max_concurrent_streaming_requests_per_connection.
Streams failing only the streaming limit are skipped but stay queued while the
FIFO scan continues: the examined streams form a prefix of the queue, the
dispatched streams are exactly the admitted examined streams in FIFO order, the
remaining queue is a subsequence of the original, and when the concurrency gate
fails at the head nothing is dispatched and the queue is untouched. -/
theorem run_pending_scan_admission (cfg : H2Config) (q : List H2Stream) (n : NumStreams) :
    (∀ e ∈ (run_pending_scan cfg n q).log,
      (e.admitted = true ↔
        (can_run_requests cfg e.numAt = true ∧
          (e.stream.hasProceedReq = true → streaming_limit_reached cfg e.numAt = false)))) ∧
    (∀ e ∈ (run_pending_scan cfg n q).log, e.admitted = false →
      e.stream ∈ (run_pending_scan cfg n q).remaining) ∧
    ((run_pending_scan cfg n q).log.map ScanEntry.stream =
      q.take (run_pending_scan cfg n q).log.length) ∧
    ((run_pending_scan cfg n q).dispatched =
      ((run_pending_scan cfg n q).log.filter (fun e => e.admitted)).map ScanEntry.stream) ∧
    (run_pending_scan cfg n q).remaining.Sublist q ∧
    (run_pending_scan cfg n q).dispatched.Sublist q ∧
    (can_run_requests cfg n = false →
      (run_pending_scan cfg n q).dispatched = [] ∧
      (run_pending_scan cfg n q).remaining = q) := by
  induction q generalizing n with
  | nil =>
    refine ⟨?_, ?_, ?_, ?_, ?_, ?_, ?_⟩ <;> simp [run_pending_scan]
  | cons s rest ih =>
    by_cases hc : can_run_requests cfg n = true
    · by_cases hskip : s.hasProceedReq = true ∧ streaming_limit_reached cfg n = true
      · -- the stream is skipped by the streaming limit; the scan continues
        have hstep : run_pending_scan cfg n (s :: rest) =
            ⟨(run_pending_scan cfg n rest).num,
             ⟨s, n, false⟩ :: (run_pending_scan cfg n rest).log,
             (run_pending_scan cfg n rest).dispatched,
             s :: (run_pending_scan cfg n rest).remaining⟩ := by
          simp [run_pending_scan, hc, hskip.1, hskip.2]
        obtain ⟨ih1, ih2, ih3, ih4, ih5, ih6, _⟩ := ih n
        rw [hstep]
        refine ⟨?_, ?_, ?_, ?_, ?_, ?_, ?_⟩
        · intro e he
          rcases List.mem_cons.mp he with he | he
          · subst he
            simp [hc, hskip.1, hskip.2]
          · exact ih1 e he
        · intro e he hadm
          rcases List.mem_cons.mp he with he | he
          · subst he
            exact List.mem_cons_self _ _
          · exact List.mem_cons_of_mem _ (ih2 e he hadm)
        · simpa using ih3
        · simpa using ih4
        · exact List.Sublist.cons₂ _ ih5
        · exact List.Sublist.cons _ ih6
        · intro h
          rw [h] at hc
          cases hc
      · -- the stream is dispatched
        have hstep : run_pending_scan cfg n (s :: rest) =
            ⟨(run_pending_scan cfg (process_request_num s n) rest).num,
             ⟨s, n, true⟩ :: (run_pending_scan cfg (process_request_num s n) rest).log,
             s :: (run_pending_scan cfg (process_request_num s n) rest).dispatched,
             (run_pending_scan cfg (process_request_num s n) rest).remaining⟩ := by
          simp [run_pending_scan, hc, hskip]
        obtain ⟨ih1, ih2, ih3, ih4, ih5, ih6, _⟩ := ih (process_request_num s n)
        rw [hstep]
        have hadm : can_run_requests cfg n = true ∧
            (s.hasProceedReq = true → streaming_limit_reached cfg n = false) := by
          refine ⟨hc, fun hp => ?_⟩
          rcases Bool.eq_false_or_eq_true (streaming_limit_reached cfg n) with h | h
          · exact absurd ⟨hp, h⟩ hskip
          · exact h
        refine ⟨?_, ?_, ?_, ?_, ?_, ?_, ?_⟩
        · intro e he
          rcases List.mem_cons.mp he with he | he
          · subst he
            exact iff_of_true rfl hadm
          · exact ih1 e he
        · intro e he hadm2
          rcases List.mem_cons.mp he with he | he
          · subst he
            cases hadm2
          · exact ih2 e he hadm2
        · simpa using ih3
        · simpa using ih4
        · exact List.Sublist.cons _ ih5
        · exact List.Sublist.cons₂ _ ih6
        · intro h
          rw [h] at hc
          cases hc
    · -- the concurrency gate fails: the scan stops, nothing is dispatched
      have hstep : run_pending_scan cfg n (s :: rest) = ⟨n, [], [], s :: rest⟩ := by
        simp [run_pending_scan, hc]
      rw [hstep]
      refine ⟨?_, ?_, ?_, ?_, ?_, ?_, ?_⟩
      · intro e he
        cases he
      · intro e he
        cases he
      · simp
      · simp
      · exact List.Sublist.refl _
      · exact List.nil_sublist _
      · intro _
        exact ⟨rfl, rfl⟩

/-- Witness for claim C2 at a configuration whose concurrency limit is zero: the
scan dispatches nothing and leaves the queue untouched. -/
theorem run_pending_scan_admission_witness :
    (run_pending_scan cfgNoConcurrency ⟨0, 0, 0, 0, 0, 0, 0, 0⟩ [mkStream 1]).dispatched = [] ∧
    (run_pending_scan cfgNoConcurrency ⟨0, 0, 0, 0, 0, 0, 0, 0⟩ [mkStream 1]).remaining =
      [mkStream 1] :=
  (run_pending_scan_admission cfgNoConcurrency [mkStream 1] ⟨0, 0, 0, 0, 0, 0, 0, 0⟩).2.2.2.2.2.2
    (by decide)

theorem mem_reset_streams_ne (conn : H2Conn) (s : H2Stream) :
    ∀ t ∈ (h2o_http2_stream_reset conn s).streams, t.streamId ≠ s.streamId := by
  intro t ht
  have := List.of_mem_filter ht
  simpa using this

/-- Claim C6: while receiving request-body chunks, when the accumulated
req_body_bytes_received exceeds max_request_entity_size the server emits
RST_STREAM(REFUSED_STREAM) and resets the stream, and when a declared
content-length is violated (the received count exceeds it, or differs from it
when END_STREAM arrives) the server emits RST_STREAM(PROTOCOL_ERROR) and resets
the stream; in both cases the connection state is unchanged and the connection
is not closed. -/
theorem body_chunk_size_guards (cfg : H2Config) (conn : H2Conn) (s : H2Stream)
    (payloadLen : Nat) (isEndStream : Bool)
    (hstate : s.reqBodyState = .rbOpenBeforeFirstFrame ∨ s.reqBodyState = .rbOpen) :
    (cfg.maxRequestEntitySize < s.reqBodyBytesReceived + payloadLen →
      (handle_request_body_chunk cfg conn s payloadLen isEndStream).2 = .entityTooLarge ∧
      (handle_request_body_chunk cfg conn s payloadLen isEndStream).1.writeBuf =
        conn.writeBuf ++ [.rstStreamFrame s.streamId H2_ERROR_REFUSED_STREAM] ∧
      (∀ t ∈ (handle_request_body_chunk cfg conn s payloadLen isEndStream).1.streams,
        t.streamId ≠ s.streamId) ∧
      (handle_request_body_chunk cfg conn s payloadLen isEndStream).1.state = conn.state ∧
      (handle_request_body_chunk cfg conn s payloadLen isEndStream).1.closedNow =
        conn.closedNow) ∧
    (s.reqBodyBytesReceived + payloadLen ≤ cfg.maxRequestEntitySize →
      content_length_violated s.contentLength (s.reqBodyBytesReceived + payloadLen)
        isEndStream = true →
      (handle_request_body_chunk cfg conn s payloadLen isEndStream).2 =
        .contentLengthMismatch ∧
      (handle_request_body_chunk cfg conn s payloadLen isEndStream).1.writeBuf =
        conn.writeBuf ++ [.rstStreamFrame s.streamId H2_ERROR_PROTOCOL] ∧
      (∀ t ∈ (handle_request_body_chunk cfg conn s payloadLen isEndStream).1.streams,
        t.streamId ≠ s.streamId) ∧
      (handle_request_body_chunk cfg conn s payloadLen isEndStream).1.state = conn.state ∧
      (handle_request_body_chunk cfg conn s payloadLen isEndStream).1.closedNow =
        conn.closedNow) := by
  rcases hstate with h | h
  · constructor
    · intro hbig
      have hr : handle_request_body_chunk cfg conn s payloadLen isEndStream =
          (h2o_http2_stream_reset
            (stream_send_error (putStream conn (chunkCountedFirst s payloadLen))
              s.streamId H2_ERROR_REFUSED_STREAM)
            (chunkCountedFirst s payloadLen),
           .entityTooLarge) := by
        simp [handle_request_body_chunk, set_req_body_state, chunkCountedFirst, h, hbig]
      rw [hr]
      refine ⟨rfl, by simp, ?_, by simp, by simp⟩
      intro t ht
      exact mem_reset_streams_ne _ _ t ht
    · intro hsmall hcl
      have hnotbig : ¬ (s.reqBodyBytesReceived + payloadLen > cfg.maxRequestEntitySize) := by
        omega
      have hr : handle_request_body_chunk cfg conn s payloadLen isEndStream =
          (h2o_http2_stream_reset
            (stream_send_error (putStream conn (chunkCountedFirst s payloadLen))
              s.streamId H2_ERROR_PROTOCOL)
            (chunkCountedFirst s payloadLen),
           .contentLengthMismatch) := by
        simp [handle_request_body_chunk, set_req_body_state, chunkCountedFirst, h, hnotbig, hcl]
      rw [hr]
      refine ⟨rfl, by simp, ?_, by simp, by simp⟩
      intro t ht
      exact mem_reset_streams_ne _ _ t ht
  · constructor
    · intro hbig
      have hr : handle_request_body_chunk cfg conn s payloadLen isEndStream =
          (h2o_http2_stream_reset
            (stream_send_error (putStream conn (chunkCounted s payloadLen))
              s.streamId H2_ERROR_REFUSED_STREAM)
            (chunkCounted s payloadLen),
           .entityTooLarge) := by
        simp [handle_request_body_chunk, set_req_body_state, chunkCounted, h, hbig]
      rw [hr]
      refine ⟨rfl, by simp, ?_, by simp, by simp⟩
      intro t ht
      exact mem_reset_streams_ne _ _ t ht
    · intro hsmall hcl
      have hnotbig : ¬ (s.reqBodyBytesReceived + payloadLen > cfg.maxRequestEntitySize) := by
        omega
      have hr : handle_request_body_chunk cfg conn s payloadLen isEndStream =
          (h2o_http2_stream_reset
            (stream_send_error (putStream conn (chunkCounted s payloadLen))
              s.streamId H2_ERROR_PROTOCOL)
            (chunkCounted s payloadLen),
           .contentLengthMismatch) := by
        simp [handle_request_body_chunk, set_req_body_state, chunkCounted, h, hnotbig, hcl]
      rw [hr]
      refine ⟨rfl, by simp, ?_, by simp, by simp⟩
      intro t ht
      exact mem_reset_streams_ne _ _ t ht

/-- Witness for claim C6 at a concrete stream that has received 8 body bytes with
a 10-byte entity limit, receiving 5 more bytes. -/
theorem body_chunk_size_guards_witness :
    (handle_request_body_chunk cfg6w conn6w s6w 5 false).2 = .entityTooLarge ∧
    (handle_request_body_chunk cfg6w conn6w s6w 5 false).1.writeBuf =
      conn6w.writeBuf ++ [.rstStreamFrame s6w.streamId H2_ERROR_REFUSED_STREAM] :=
  ⟨((body_chunk_size_guards cfg6w conn6w s6w 5 false (Or.inr rfl)).1 (by decide)).1,
   ((body_chunk_size_guards cfg6w conn6w s6w 5 false (Or.inr rfl)).1 (by decide)).2.1⟩

/-- Claim C7: the connection begins by expecting the exact 24-byte client preface
(create_conn installs expect_preface and initializes the connection input window
at the target).  Once 24 bytes are available, a mismatch closes the connection
immediately without appending any frame (no GOAWAY); a match appends the fixed
server preface bytes - a SETTINGS frame with max_concurrent_streams = 100
followed by a connection-level WINDOW_UPDATE whose increment raises the
connection window from the default 65535 to the target - and switches
_read_expect to the normal frame dispatcher. -/
theorem preface_handshake (conn : H2Conn) (input : List Nat)
    (hre : conn.readExpect = .expectPreface)
    (hstate : conn.state = .connOpen)
    (hnofl : conn.writeBufInFlight = false)
    (hnotim : conn.writeTimerLinked = false)
    (hlen : CONNECTION_PREFACE.length ≤ input.length) :
    (input.take CONNECTION_PREFACE.length = CONNECTION_PREFACE →
      (parse_input_step conn input).1.readExpect = .expectDefault ∧
      (parse_input_step conn input).1.writeBuf =
        conn.writeBuf ++ [.rawBytes SERVER_PREFACE_BIN] ∧
      (parse_input_step conn input).2 = input.drop CONNECTION_PREFACE.length ∧
      (parse_input_step conn input).1.state = .connOpen) ∧
    (input.take CONNECTION_PREFACE.length ≠ CONNECTION_PREFACE →
      (parse_input_step conn input).1.state = .isClosing ∧
      (parse_input_step conn input).1.closedNow = true ∧
      (parse_input_step conn input).1.writeBuf = conn.writeBuf) ∧
    SERVER_PREFACE_BIN =
      [0, 0, 6, 4, 0, 0, 0, 0, 0,
       0, 3, 0, 0, 0, 100,
       0, 0, 4, 8, 0, 0, 0, 0, 0,
       0, 255, 0, 1] ∧
    HOST_STREAM_INITIAL_WINDOW_SIZE +
        (HOST_CONNECTION_WINDOW_SIZE - HOST_STREAM_INITIAL_WINDOW_SIZE) =
      HOST_CONNECTION_WINDOW_SIZE ∧
    create_conn_model.readExpect = .expectPreface ∧
    create_conn_model.inputWindowC.avail = (HOST_CONNECTION_WINDOW_SIZE : Int) := by
  have hne : input ≠ [] := by
    intro he
    rw [he] at hlen
    have h24 : CONNECTION_PREFACE.length = 24 := by decide
    rw [h24] at hlen
    simp at hlen
  have hcond : conn.state.toNat < ConnState.isClosing.toNat ∧ input ≠ [] := by
    refine ⟨?_, hne⟩
    rw [hstate]
    decide
  unfold parse_input_step
  rw [if_pos hcond, hre]
  unfold expect_preface
  rw [if_neg (by omega)]
  refine ⟨?_, ?_, by decide, by decide, rfl, rfl⟩
  · intro htake
    rw [if_neg (by simp [htake])]
    refine ⟨rfl, by simp, rfl, by simp [hstate]⟩
  · intro htake
    rw [if_pos htake]
    refine ⟨close_connection_state _, ?_, ?_⟩
    · unfold close_connection close_connection_now
      simp [hnofl, hnotim]
    · unfold close_connection close_connection_now
      simp [hnofl, hnotim]

/-- Witness for claim C7 at the freshly created connection receiving exactly the
client preface bytes. -/
theorem preface_handshake_witness :
    (parse_input_step create_conn_model CONNECTION_PREFACE).1.readExpect = .expectDefault ∧
    (parse_input_step create_conn_model CONNECTION_PREFACE).1.writeBuf =
      create_conn_model.writeBuf ++ [.rawBytes SERVER_PREFACE_BIN] :=
  ⟨((preface_handshake create_conn_model CONNECTION_PREFACE rfl rfl rfl rfl
      (by decide)).1 (by decide)).1,
   ((preface_handshake create_conn_model CONNECTION_PREFACE rfl rfl rfl rfl
      (by decide)).1 (by decide)).2.1⟩

@[simp] theorem window_get_avail_eq (w : H2Window) :
    h2o_http2_window_get_avail w = w.avail := rfl

@[simp] theorem window_consume_avail (w : H2Window) (n : Nat) :
    (h2o_http2_window_consume_window w n).avail = w.avail - n := rfl

theorem conn_update_input_window_avail (conn : H2Conn) (L : Nat) :
    (conn_update_input_window conn L).inputWindowC.avail =
      (if conn.inputWindowC.avail - L ≤ (HOST_CONNECTION_WINDOW_SIZE : Int) / 2 then
        (HOST_CONNECTION_WINDOW_SIZE : Int)
      else conn.inputWindowC.avail - L) := by
  unfold conn_update_input_window send_window_update h2o_http2_window_update
    h2o_http2_window_consume_window h2o_http2_window_get_avail
  simp only [HOST_CONNECTION_WINDOW_SIZE, INT32_MAX]
  split_ifs with h1 h2 <;> simp <;> omega

theorem conn_update_input_window_writeBuf (conn : H2Conn) (L : Nat) :
    (conn_update_input_window conn L).writeBuf =
      conn.writeBuf ++
        (if conn.inputWindowC.avail - L ≤ (HOST_CONNECTION_WINDOW_SIZE : Int) / 2 then
          [OutFrame.windowUpdateFrame 0
            ((HOST_CONNECTION_WINDOW_SIZE : Int) - (conn.inputWindowC.avail - L))]
        else []) := by
  unfold conn_update_input_window send_window_update
  simp only [HOST_CONNECTION_WINDOW_SIZE]
  split_ifs with h1 h2 <;> simp at h1 ⊢ <;> omega

@[simp] theorem conn_update_input_window_streams (conn : H2Conn) (L : Nat) :
    (conn_update_input_window conn L).streams = conn.streams := by
  simp only [conn_update_input_window, send_window_update]
  split_ifs <;> simp

@[simp] theorem conn_update_input_window_state (conn : H2Conn) (L : Nat) :
    (conn_update_input_window conn L).state = conn.state := by
  simp only [conn_update_input_window, send_window_update]
  split_ifs <;> simp

@[simp] theorem conn_update_input_window_closedNow (conn : H2Conn) (L : Nat) :
    (conn_update_input_window conn L).closedNow = conn.closedNow := by
  simp only [conn_update_input_window, send_window_update]
  split_ifs <;> simp

@[simp] theorem conn_update_input_window_pullMaxOpen (conn : H2Conn) (L : Nat) :
    (conn_update_input_window conn L).pullMaxOpen = conn.pullMaxOpen := by
  simp only [conn_update_input_window, send_window_update]
  split_ifs <;> simp

theorem get_stream_conn_update (conn : H2Conn) (L : Nat) (streamId : Nat) :
    h2o_http2_conn_get_stream (conn_update_input_window conn L) streamId =
      h2o_http2_conn_get_stream conn streamId := by
  unfold h2o_http2_conn_get_stream
  rw [conn_update_input_window_streams]

theorem close_connection_writeBuf (conn : H2Conn) :
    (close_connection conn).writeBuf = conn.writeBuf := by
  simp only [close_connection, close_connection_now]
  split <;> rfl

theorem parse_error_close_spec (conn : H2Conn) (code : Nat) (desc : String)
    (h : conn.state.toNat < ConnState.isClosing.toNat) :
    (parse_error_close conn code desc).state = .isClosing ∧
    (parse_error_close conn code desc).writeBuf =
      conn.writeBuf ++ [.goawayFrame conn.pullMaxOpen code desc] := by
  unfold parse_error_close enqueue_goaway
  rw [if_pos h]
  refine ⟨close_connection_state _, ?_⟩
  rw [close_connection_writeBuf]
  simp

/-- Claim C8: a DATA frame whose stream id is absent from the stream map is a
stream error when the id is at most pull_stream_ids.max_open -
RST_STREAM(STREAM_CLOSED) is sent and the connection stays open - but a
connection error PROTOCOL_ERROR when the id is greater (an idle stream), which
parse_input turns into a GOAWAY carrying that code followed by closing the
connection. -/
theorem data_frame_unknown_stream (cfg : H2Config) (conn : H2Conn) (f : DataFrame)
    (habsent : h2o_http2_conn_get_stream conn f.streamId = none)
    (hstate : conn.state = .connOpen) :
    (f.streamId ≤ conn.pullMaxOpen →
      (handle_data_frame cfg conn f).2 = .ok ∧
      OutFrame.rstStreamFrame f.streamId H2_ERROR_STREAM_CLOSED ∈
        (handle_data_frame cfg conn f).1.writeBuf ∧
      (handle_data_frame cfg conn f).1.state = .connOpen ∧
      (handle_data_frame cfg conn f).1.closedNow = conn.closedNow) ∧
    (conn.pullMaxOpen < f.streamId →
      (handle_data_frame cfg conn f).2 = .connError H2_ERROR_PROTOCOL "invalid DATA frame" ∧
      (parse_error_close (handle_data_frame cfg conn f).1 H2_ERROR_PROTOCOL
        "invalid DATA frame").state = .isClosing ∧
      OutFrame.goawayFrame (handle_data_frame cfg conn f).1.pullMaxOpen H2_ERROR_PROTOCOL
          "invalid DATA frame" ∈
        (parse_error_close (handle_data_frame cfg conn f).1 H2_ERROR_PROTOCOL
          "invalid DATA frame").writeBuf) := by
  have hget : h2o_http2_conn_get_stream (conn_update_input_window conn f.length) f.streamId =
      none := by
    rw [get_stream_conn_update]
    exact habsent
  simp only [handle_data_frame]
  rw [hget]
  constructor
  · intro hle
    have hle2 : f.streamId ≤ (conn_update_input_window conn f.length).pullMaxOpen := by
      rw [conn_update_input_window_pullMaxOpen]
      exact hle
    rw [if_pos hle2]
    refine ⟨rfl, ?_, ?_, ?_⟩
    · simp
    · simp [hstate]
    · simp
  · intro hgt
    have hnle : ¬ (f.streamId ≤ (conn_update_input_window conn f.length).pullMaxOpen) := by
      rw [conn_update_input_window_pullMaxOpen]
      omega
    rw [if_neg hnle]
    have hst : (conn_update_input_window conn f.length).state.toNat <
        ConnState.isClosing.toNat := by
      rw [conn_update_input_window_state, hstate]
      decide
    refine ⟨rfl, ?_, ?_⟩
    · exact (parse_error_close_spec _ _ _ hst).1
    · rw [(parse_error_close_spec _ _ _ hst).2]
      simp

/-- Witness for claim C8 at a connection with max open pull id 5, an empty stream
map, and a DATA frame for the closed stream 3. -/
theorem data_frame_unknown_stream_witness :
    (handle_data_frame cfgDefault conn8w f8w).2 = .ok ∧
    OutFrame.rstStreamFrame f8w.streamId H2_ERROR_STREAM_CLOSED ∈
      (handle_data_frame cfgDefault conn8w f8w).1.writeBuf :=
  ⟨((data_frame_unknown_stream cfgDefault conn8w f8w rfl rfl).1 (by decide)).1,
   ((data_frame_unknown_stream cfgDefault conn8w f8w rfl rfl).1 (by decide)).2.1⟩

@[simp] theorem hasConnWU_nil : hasConnWU [] = false := rfl

@[simp] theorem hasConnWU_append (l1 l2 : List OutFrame) :
    hasConnWU (l1 ++ l2) = (hasConnWU l1 || hasConnWU l2) := by
  simp [hasConnWU]

@[simp] theorem hasConnWU_ite (c : Prop) [Decidable c] (a b : List OutFrame) :
    hasConnWU (if c then a else b) = if c then hasConnWU a else hasConnWU b := by
  split <;> rfl

@[simp] theorem hasConnWU_rst (streamId errnum : Nat) :
    hasConnWU [.rstStreamFrame streamId errnum] = false := rfl

@[simp] theorem hasConnWU_goaway (lastStreamId errnum : Nat) (d : String) :
    hasConnWU [.goawayFrame lastStreamId errnum d] = false := rfl

@[simp] theorem hasConnWU_wu (streamId : Nat) (inc : Int) :
    hasConnWU [.windowUpdateFrame streamId inc] = (streamId == 0) := by
  simp [hasConnWU]

@[simp] theorem usiw_fst_inputWindowC (conn : H2Conn) (s : H2Stream) (d : Nat) :
    (update_stream_input_window conn s d).1.inputWindowC = conn.inputWindowC := by
  simp only [update_stream_input_window, send_window_update]
  split_ifs <;> simp

@[simp] theorem usiw_fst_state (conn : H2Conn) (s : H2Stream) (d : Nat) :
    (update_stream_input_window conn s d).1.state = conn.state := by
  simp only [update_stream_input_window, send_window_update]
  split_ifs <;> simp

@[simp] theorem usiw_fst_closedNow (conn : H2Conn) (s : H2Stream) (d : Nat) :
    (update_stream_input_window conn s d).1.closedNow = conn.closedNow := by
  simp only [update_stream_input_window, send_window_update]
  split_ifs <;> simp

@[simp] theorem usiw_snd_streamId (conn : H2Conn) (s : H2Stream) (d : Nat) :
    (update_stream_input_window conn s d).2.streamId = s.streamId := by
  simp only [update_stream_input_window, send_window_update]
  split_ifs <;> simp

theorem usiw_fst_connWU (conn : H2Conn) (s : H2Stream) (d : Nat)
    (hsid : s.streamId ≠ 0) :
    hasConnWU (update_stream_input_window conn s d).1.writeBuf =
      hasConnWU conn.writeBuf := by
  simp only [update_stream_input_window, send_window_update]
  split_ifs <;> simp [hsid]

theorem usiw_fst_pfx (conn : H2Conn) (s : H2Stream) (d : Nat) :
    conn.writeBuf <+: (update_stream_input_window conn s d).1.writeBuf := by
  simp only [update_stream_input_window, send_window_update]
  split_ifs <;> simp [List.prefix_append, List.prefix_refl]

theorem rsid_fst_connWU (conn : H2Conn) (s : H2Stream) :
    hasConnWU (reset_stream_if_disregarded conn s).1.writeBuf =
      hasConnWU conn.writeBuf := by
  unfold reset_stream_if_disregarded
  split_ifs <;> simp

theorem rsid_fst_pfx (conn : H2Conn) (s : H2Stream) :
    conn.writeBuf <+: (reset_stream_if_disregarded conn s).1.writeBuf := by
  unfold reset_stream_if_disregarded
  split_ifs <;> simp [List.prefix_append, List.prefix_refl]

@[simp] theorem rsid_fst_inputWindowC (conn : H2Conn) (s : H2Stream) :
    (reset_stream_if_disregarded conn s).1.inputWindowC = conn.inputWindowC := by
  unfold reset_stream_if_disregarded
  split_ifs <;> simp

@[simp] theorem rsid_fst_state (conn : H2Conn) (s : H2Stream) :
    (reset_stream_if_disregarded conn s).1.state = conn.state := by
  unfold reset_stream_if_disregarded
  split_ifs <;> simp

@[simp] theorem rsid_fst_closedNow (conn : H2Conn) (s : H2Stream) :
    (reset_stream_if_disregarded conn s).1.closedNow = conn.closedNow := by
  unfold reset_stream_if_disregarded
  split_ifs <;> simp

@[simp] theorem set_blocked_fst_writeBuf (conn : H2Conn) (s : H2Stream) (v : Bool) :
    (h2o_http2_stream_set_blocked_by_server conn s v).1.writeBuf = conn.writeBuf := by
  unfold h2o_http2_stream_set_blocked_by_server
  split_ifs <;> rfl

@[simp] theorem set_blocked_fst_inputWindowC (conn : H2Conn) (s : H2Stream) (v : Bool) :
    (h2o_http2_stream_set_blocked_by_server conn s v).1.inputWindowC = conn.inputWindowC := by
  unfold h2o_http2_stream_set_blocked_by_server
  split_ifs <;> rfl

@[simp] theorem set_blocked_fst_state (conn : H2Conn) (s : H2Stream) (v : Bool) :
    (h2o_http2_stream_set_blocked_by_server conn s v).1.state = conn.state := by
  unfold h2o_http2_stream_set_blocked_by_server
  split_ifs <;> rfl

@[simp] theorem set_blocked_fst_closedNow (conn : H2Conn) (s : H2Stream) (v : Bool) :
    (h2o_http2_stream_set_blocked_by_server conn s v).1.closedNow = conn.closedNow := by
  unfold h2o_http2_stream_set_blocked_by_server
  split_ifs <;> rfl

@[simp] theorem set_blocked_fst_pullMaxOpen (conn : H2Conn) (s : H2Stream) (v : Bool) :
    (h2o_http2_stream_set_blocked_by_server conn s v).1.pullMaxOpen = conn.pullMaxOpen := by
  unfold h2o_http2_stream_set_blocked_by_server
  split_ifs <;> rfl

@[simp] theorem set_blocked_snd_streamId (conn : H2Conn) (s : H2Stream) (v : Bool) :
    (h2o_http2_stream_set_blocked_by_server conn s v).2.streamId = s.streamId := by
  unfold h2o_http2_stream_set_blocked_by_server
  split_ifs <;> rfl

@[simp] theorem set_state_fst_writeBuf (conn : H2Conn) (s : H2Stream) (ns : StreamState) :
    (h2o_http2_stream_set_state conn s ns).1.writeBuf = conn.writeBuf := by
  unfold h2o_http2_stream_set_state
  split_ifs <;> rfl

@[simp] theorem set_state_fst_inputWindowC (conn : H2Conn) (s : H2Stream) (ns : StreamState) :
    (h2o_http2_stream_set_state conn s ns).1.inputWindowC = conn.inputWindowC := by
  unfold h2o_http2_stream_set_state
  split_ifs <;> rfl

@[simp] theorem set_state_fst_state (conn : H2Conn) (s : H2Stream) (ns : StreamState) :
    (h2o_http2_stream_set_state conn s ns).1.state = conn.state := by
  unfold h2o_http2_stream_set_state
  split_ifs <;> rfl

@[simp] theorem set_state_fst_closedNow (conn : H2Conn) (s : H2Stream) (ns : StreamState) :
    (h2o_http2_stream_set_state conn s ns).1.closedNow = conn.closedNow := by
  unfold h2o_http2_stream_set_state
  split_ifs <;> rfl

@[simp] theorem set_state_fst_pullMaxOpen (conn : H2Conn) (s : H2Stream) (ns : StreamState) :
    (h2o_http2_stream_set_state conn s ns).1.pullMaxOpen = conn.pullMaxOpen := by
  unfold h2o_http2_stream_set_state
  split_ifs <;> rfl

@[simp] theorem set_state_snd_streamId (conn : H2Conn) (s : H2Stream) (ns : StreamState) :
    (h2o_http2_stream_set_state conn s ns).2.streamId = s.streamId := by
  unfold h2o_http2_stream_set_state
  split_ifs <;> rfl

@[simp] theorem srbs_fst_writeBuf (conn : H2Conn) (s : H2Stream) (ns : ReqBodyState) :
    (set_req_body_state conn s ns).1.writeBuf = conn.writeBuf := by
  unfold set_req_body_state
  cases ns <;> dsimp <;> split_ifs <;> rfl

@[simp] theorem srbs_fst_inputWindowC (conn : H2Conn) (s : H2Stream) (ns : ReqBodyState) :
    (set_req_body_state conn s ns).1.inputWindowC = conn.inputWindowC := by
  unfold set_req_body_state
  cases ns <;> dsimp <;> split_ifs <;> rfl

@[simp] theorem srbs_fst_state (conn : H2Conn) (s : H2Stream) (ns : ReqBodyState) :
    (set_req_body_state conn s ns).1.state = conn.state := by
  unfold set_req_body_state
  cases ns <;> dsimp <;> split_ifs <;> rfl

@[simp] theorem srbs_fst_closedNow (conn : H2Conn) (s : H2Stream) (ns : ReqBodyState) :
    (set_req_body_state conn s ns).1.closedNow = conn.closedNow := by
  unfold set_req_body_state
  cases ns <;> dsimp <;> split_ifs <;> rfl

@[simp] theorem srbs_fst_pullMaxOpen (conn : H2Conn) (s : H2Stream) (ns : ReqBodyState) :
    (set_req_body_state conn s ns).1.pullMaxOpen = conn.pullMaxOpen := by
  unfold set_req_body_state
  cases ns <;> dsimp <;> split_ifs <;> rfl

@[simp] theorem srbs_snd_streamId (conn : H2Conn) (s : H2Stream) (ns : ReqBodyState) :
    (set_req_body_state conn s ns).2.streamId = s.streamId := by
  unfold set_req_body_state
  cases ns <;> dsimp <;> split_ifs <;> rfl

@[simp] theorem run_pending_requests_writeBuf (cfg : H2Config) (conn : H2Conn) :
    (run_pending_requests cfg conn).writeBuf = conn.writeBuf := rfl

@[simp] theorem run_pending_requests_inputWindowC (cfg : H2Config) (conn : H2Conn) :
    (run_pending_requests cfg conn).inputWindowC = conn.inputWindowC := rfl

@[simp] theorem run_pending_requests_state (cfg : H2Config) (conn : H2Conn) :
    (run_pending_requests cfg conn).state = conn.state := rfl

@[simp] theorem run_pending_requests_closedNow (cfg : H2Config) (conn : H2Conn) :
    (run_pending_requests cfg conn).closedNow = conn.closedNow := rfl

@[simp] theorem eoe_core_writeBuf (cfg : H2Config) (conn : H2Conn) (s : H2Stream) :
    (execute_or_enqueue_request_core cfg conn s).writeBuf = conn.writeBuf := rfl

@[simp] theorem eoe_core_inputWindowC (cfg : H2Config) (conn : H2Conn) (s : H2Stream) :
    (execute_or_enqueue_request_core cfg conn s).inputWindowC = conn.inputWindowC := rfl

@[simp] theorem eoe_core_state (cfg : H2Config) (conn : H2Conn) (s : H2Stream) :
    (execute_or_enqueue_request_core cfg conn s).state = conn.state := rfl

@[simp] theorem eoe_core_closedNow (cfg : H2Config) (conn : H2Conn) (s : H2Stream) :
    (execute_or_enqueue_request_core cfg conn s).closedNow = conn.closedNow := rfl

theorem eoe_connWU (cfg : H2Config) (conn : H2Conn) (s : H2Stream) :
    hasConnWU (execute_or_enqueue_request cfg conn s).writeBuf =
      hasConnWU conn.writeBuf := by
  simp only [execute_or_enqueue_request]
  split_ifs with h h2
  · exact rsid_fst_connWU conn s
  all_goals simp

theorem eoe_pfx (cfg : H2Config) (conn : H2Conn) (s : H2Stream) :
    conn.writeBuf <+: (execute_or_enqueue_request cfg conn s).writeBuf := by
  simp only [execute_or_enqueue_request]
  split_ifs with h h2
  · exact rsid_fst_pfx conn s
  all_goals simp [List.prefix_refl]

@[simp] theorem eoe_inputWindowC (cfg : H2Config) (conn : H2Conn) (s : H2Stream) :
    (execute_or_enqueue_request cfg conn s).inputWindowC = conn.inputWindowC := by
  simp only [execute_or_enqueue_request]
  split_ifs with h <;> simp

@[simp] theorem eoe_state (cfg : H2Config) (conn : H2Conn) (s : H2Stream) :
    (execute_or_enqueue_request cfg conn s).state = conn.state := by
  simp only [execute_or_enqueue_request]
  split_ifs with h <;> simp

@[simp] theorem eoe_closedNow (cfg : H2Config) (conn : H2Conn) (s : H2Stream) :
    (execute_or_enqueue_request cfg conn s).closedNow = conn.closedNow := by
  simp only [execute_or_enqueue_request]
  split_ifs with h <;> simp

@[simp] theorem ces_fst_writeBuf (conn : H2Conn) (s : H2Stream) (isEndStream : Bool) :
    (chunk_end_stream_updates conn s isEndStream).1.writeBuf = conn.writeBuf := by
  simp only [chunk_end_stream_updates]
  split_ifs <;> simp

@[simp] theorem ces_fst_inputWindowC (conn : H2Conn) (s : H2Stream) (isEndStream : Bool) :
    (chunk_end_stream_updates conn s isEndStream).1.inputWindowC = conn.inputWindowC := by
  simp only [chunk_end_stream_updates]
  split_ifs <;> simp

@[simp] theorem ces_fst_state (conn : H2Conn) (s : H2Stream) (isEndStream : Bool) :
    (chunk_end_stream_updates conn s isEndStream).1.state = conn.state := by
  simp only [chunk_end_stream_updates]
  split_ifs <;> simp

@[simp] theorem ces_fst_closedNow (conn : H2Conn) (s : H2Stream) (isEndStream : Bool) :
    (chunk_end_stream_updates conn s isEndStream).1.closedNow = conn.closedNow := by
  simp only [chunk_end_stream_updates]
  split_ifs <;> simp

@[simp] theorem ces_snd_streamId (conn : H2Conn) (s : H2Stream) (isEndStream : Bool) :
    (chunk_end_stream_updates conn s isEndStream).2.streamId = s.streamId := by
  simp only [chunk_end_stream_updates]
  split_ifs <;> simp

theorem chunk_deliver_connWU (cfg : H2Config) (conn : H2Conn) (s : H2Stream)
    (reqQueued isFirst isEndStream : Bool) (hsid : s.streamId ≠ 0) :
    hasConnWU (chunk_deliver cfg conn s reqQueued isFirst isEndStream).1.writeBuf =
      hasConnWU conn.writeBuf := by
  simp only [chunk_deliver]
  split_ifs <;>
    simp [eoe_connWU, usiw_fst_connWU, hsid]

theorem chunk_deliver_pfx (cfg : H2Config) (conn : H2Conn) (s : H2Stream)
    (reqQueued isFirst isEndStream : Bool) :
    conn.writeBuf <+: (chunk_deliver cfg conn s reqQueued isFirst isEndStream).1.writeBuf := by
  simp only [chunk_deliver]
  split_ifs <;>
    first
    | (simp [List.prefix_refl]; done)
    | (refine List.IsPrefix.trans ?_ (eoe_pfx _ _ _); simp [List.prefix_refl]; done)
    | (refine List.IsPrefix.trans ?_ (usiw_fst_pfx _ _ _); simp [List.prefix_refl])

@[simp] theorem chunk_deliver_inputWindowC (cfg : H2Config) (conn : H2Conn) (s : H2Stream)
    (reqQueued isFirst isEndStream : Bool) :
    (chunk_deliver cfg conn s reqQueued isFirst isEndStream).1.inputWindowC =
      conn.inputWindowC := by
  simp only [chunk_deliver]
  split_ifs <;> simp

theorem chunk_rest_connWU (cfg : H2Config) (conn0 : H2Conn) (s0 : H2Stream)
    (isFirst : Bool) (payloadLen : Nat) (isEndStream : Bool)
    (hsid : s0.streamId ≠ 0) :
    hasConnWU (handle_request_body_chunk_rest cfg conn0 s0 isFirst payloadLen
      isEndStream).1.writeBuf = hasConnWU conn0.writeBuf := by
  simp only [handle_request_body_chunk_rest]
  split_ifs <;>
    simp [rsid_fst_connWU, chunk_deliver_connWU, hsid]

theorem chunk_rest_pfx (cfg : H2Config) (conn0 : H2Conn) (s0 : H2Stream)
    (isFirst : Bool) (payloadLen : Nat) (isEndStream : Bool) :
    conn0.writeBuf <+: (handle_request_body_chunk_rest cfg conn0 s0 isFirst payloadLen
      isEndStream).1.writeBuf := by
  simp only [handle_request_body_chunk_rest]
  split_ifs <;>
    first
    | (refine List.IsPrefix.trans ?_ (rsid_fst_pfx _ _); simp [List.prefix_refl]; done)
    | (refine List.IsPrefix.trans ?_ (chunk_deliver_pfx _ _ _ _ _ _)
       rw [ces_fst_writeBuf]
       refine List.IsPrefix.trans ?_ (rsid_fst_pfx _ _)
       simp [List.prefix_refl])

@[simp] theorem chunk_rest_inputWindowC (cfg : H2Config) (conn0 : H2Conn) (s0 : H2Stream)
    (isFirst : Bool) (payloadLen : Nat) (isEndStream : Bool) :
    (handle_request_body_chunk_rest cfg conn0 s0 isFirst payloadLen
      isEndStream).1.inputWindowC = conn0.inputWindowC := by
  simp only [handle_request_body_chunk_rest]
  split_ifs <;> simp

theorem chunk_connWU (cfg : H2Config) (conn0 : H2Conn) (s0 : H2Stream)
    (payloadLen : Nat) (isEndStream : Bool)
    (hsid : s0.streamId ≠ 0) :
    hasConnWU (handle_request_body_chunk cfg conn0 s0 payloadLen
      isEndStream).1.writeBuf = hasConnWU conn0.writeBuf := by
  simp only [handle_request_body_chunk]
  split_ifs <;>
    simp [chunk_rest_connWU, srbs_snd_streamId, hsid]

theorem chunk_pfx (cfg : H2Config) (conn0 : H2Conn) (s0 : H2Stream)
    (payloadLen : Nat) (isEndStream : Bool) :
    conn0.writeBuf <+: (handle_request_body_chunk cfg conn0 s0 payloadLen
      isEndStream).1.writeBuf := by
  simp only [handle_request_body_chunk]
  split_ifs <;>
    first
    | (simp [List.prefix_refl]; done)
    | (refine List.IsPrefix.trans ?_ (chunk_rest_pfx _ _ _ _ _ _); simp [List.prefix_refl])

@[simp] theorem chunk_inputWindowC (cfg : H2Config) (conn0 : H2Conn) (s0 : H2Stream)
    (payloadLen : Nat) (isEndStream : Bool) :
    (handle_request_body_chunk cfg conn0 s0 payloadLen
      isEndStream).1.inputWindowC = conn0.inputWindowC := by
  simp only [handle_request_body_chunk]
  split_ifs <;> simp

theorem hdf_inputWindowC (cfg : H2Config) (conn : H2Conn) (f : DataFrame) :
    (handle_data_frame cfg conn f).1.inputWindowC =
      (conn_update_input_window conn f.length).inputWindowC := by
  simp only [handle_data_frame]
  split
  · split_ifs <;> simp
  · split_ifs <;> simp

theorem hdf_connWU (cfg : H2Config) (conn : H2Conn) (f : DataFrame)
    (hsid : f.streamId ≠ 0) :
    hasConnWU (handle_data_frame cfg conn f).1.writeBuf =
      hasConnWU (conn_update_input_window conn f.length).writeBuf := by
  simp only [handle_data_frame]
  split
  · split_ifs <;> simp
  · next s heq =>
    have hs0 : s.streamId ≠ 0 := by
      unfold h2o_http2_conn_get_stream at heq
      have := List.find?_some heq
      simp at this
      rw [this]
      exact hsid
    split_ifs <;> simp [chunk_connWU, usiw_fst_connWU, hs0, hsid]

theorem hdf_pfx (cfg : H2Config) (conn : H2Conn) (f : DataFrame) :
    (conn_update_input_window conn f.length).writeBuf <+:
      (handle_data_frame cfg conn f).1.writeBuf := by
  simp only [handle_data_frame]
  split
  · split_ifs <;> simp [List.prefix_refl, List.prefix_append]
  · split_ifs
    · refine List.IsPrefix.trans ?_ (chunk_pfx _ _ _ _ _)
      simp only [putStream_writeBuf]
      refine List.IsPrefix.trans ?_ (usiw_fst_pfx _ _ _)
      simp [List.prefix_refl]
    · refine List.IsPrefix.trans ?_ (chunk_pfx _ _ _ _ _)
      simp [List.prefix_refl]
    · simp
      refine List.IsPrefix.trans ?_ (usiw_fst_pfx (putStream _ _) _ _)
      simp [List.prefix_refl]
    · simp
    · simp [List.prefix_append]

/-- Claim C1: for every received DATA frame, the connection-level input window is
decreased by the full frame length (including padding); when the resulting
available window is at most half the 16 MiB target, it is restored to the target
and a connection-level WINDOW_UPDATE carrying the increment target minus the
available window appears in the write buffer; otherwise the window stays at the
decreased value and no connection-level WINDOW_UPDATE is added to the write
buffer. -/
theorem data_frame_conn_window (cfg : H2Config) (conn : H2Conn) (f : DataFrame)
    (hsid : f.streamId ≠ 0) :
    (conn.inputWindowC.avail - f.length ≤ (HOST_CONNECTION_WINDOW_SIZE : Int) / 2 →
      (handle_data_frame cfg conn f).1.inputWindowC.avail =
        (HOST_CONNECTION_WINDOW_SIZE : Int) ∧
      OutFrame.windowUpdateFrame 0
          ((HOST_CONNECTION_WINDOW_SIZE : Int) - (conn.inputWindowC.avail - f.length)) ∈
        (handle_data_frame cfg conn f).1.writeBuf) ∧
    ((HOST_CONNECTION_WINDOW_SIZE : Int) / 2 < conn.inputWindowC.avail - f.length →
      (handle_data_frame cfg conn f).1.inputWindowC.avail =
        conn.inputWindowC.avail - f.length ∧
      hasConnWU (handle_data_frame cfg conn f).1.writeBuf = hasConnWU conn.writeBuf) := by
  constructor
  · intro hcond
    constructor
    · rw [hdf_inputWindowC, conn_update_input_window_avail, if_pos hcond]
    · have hw := conn_update_input_window_writeBuf conn f.length
      rw [if_pos hcond] at hw
      have hmem : OutFrame.windowUpdateFrame 0
          ((HOST_CONNECTION_WINDOW_SIZE : Int) - (conn.inputWindowC.avail - f.length)) ∈
          (conn_update_input_window conn f.length).writeBuf := by
        rw [hw]
        simp
      exact (hdf_pfx cfg conn f).subset hmem
  · intro hcond
    have hnc : ¬ (conn.inputWindowC.avail - f.length ≤
        (HOST_CONNECTION_WINDOW_SIZE : Int) / 2) := by omega
    constructor
    · rw [hdf_inputWindowC, conn_update_input_window_avail, if_neg hnc]
    · rw [hdf_connWU cfg conn f hsid]
      have hw := conn_update_input_window_writeBuf conn f.length
      rw [if_neg hnc] at hw
      rw [hw]
      simp

/-- Witness for claim C1 at the freshly created connection receiving a DATA frame
of 9000000 bytes, which drains the window to at most half the target. -/
theorem data_frame_conn_window_witness :
    (handle_data_frame cfgDefault create_conn_model f1w).1.inputWindowC.avail =
      (HOST_CONNECTION_WINDOW_SIZE : Int) ∧
    OutFrame.windowUpdateFrame 0
        ((HOST_CONNECTION_WINDOW_SIZE : Int) -
          (create_conn_model.inputWindowC.avail - f1w.length)) ∈
      (handle_data_frame cfgDefault create_conn_model f1w).1.writeBuf :=
  ⟨((data_frame_conn_window cfgDefault create_conn_model f1w (by decide)).1 (by decide)).1,
   ((data_frame_conn_window cfgDefault create_conn_model f1w (by decide)).1 (by decide)).2⟩
